import Mathlib

/-!
# Fides Protocol — shallow embedding and verification

This file embeds the core of the `fides-run` repository (modules
`hash_chain.py`, `records.py`, `ledger.py`, `verify.py`) in Lean 4 and
proves/refutes the specification claims about it.

Modelling conventions:

* Python/JSON record values are modelled by `JVal`: JSON scalars and arrays
  of scalars.  Every record this protocol ever builds (factory-created
  records, JSON round-trips through the ledger) uses only these shapes.
* A record (Python `dict`) is an association list `Rec` with
  first-occurrence lookup; Python dicts have unique keys, which assoc lists
  with first-match lookup represent faithfully.
* Python exceptions are modelled with `Except`: a function that can raise
  returns `Except PyExc _` (or `Except Err _` for the factory/ledger layer).
* `decimal.Decimal` is modelled by `PyDec` (coefficient/exponent pairs plus
  infinities and NaNs).  Additions round to 28 significant digits
  (half-even), exactly like Python's default decimal context.  The context's
  exponent limits (`Emax`) and `'_'` digit separators are not modelled.
* `datetime` values are modelled by `PyDateTime` (wall-clock microseconds on
  a linear proleptic-Gregorian scale plus an optional UTC offset).
  `datetime.fromisoformat` is modelled on the grammar
  `YYYY-MM-DD[<sep>HH:MM[:SS[.frac]]][±HH[:MM[:SS]]]`, which covers every
  timestamp this system produces; the spec treats timestamp parsing as an
  opaque scalar validator.
* The SQLite backing store is out of scope per the spec ("the choice of
  backing storage technology" is an external collaborator): the ledger state
  is the ordered record list plus the payment list, and the SQL lookups are
  modelled by the corresponding list searches over the stored column values.
-/

set_option maxHeartbeats 1000000

deriving instance DecidableEq for Except

/-- JSON scalar values (`null`, booleans, integers, strings). JSON floats are
not modelled (no record in this system carries one). -/
inductive JPrim where
  | null
  | bool (b : Bool)
  | int (n : Int)
  | str (s : String)
deriving DecidableEq, Repr

/-- JSON values as they occur in Fides records: scalars and arrays of
scalars (`deciders_id`, `signatures` are arrays of strings). -/
inductive JVal where
  | prim (p : JPrim)
  | arr (l : List JPrim)
deriving DecidableEq, Repr

/-- A Python dict parsed from JSON: association list with first-match
lookup. -/
abbrev Rec := List (String × JVal)

/-- First value stored under key `k`, if any. -/
def recFind (r : Rec) (k : String) : Option JVal :=
  (r.find? (fun kv => kv.1 == k)).map (fun kv => kv.2)

/-- Python `d.get(k, default)`: the stored value when the key is present
(even if it is `None`), else the default. -/
def recGetD (r : Rec) (k : String) (d : JVal) : JVal :=
  (recFind r k).getD d

/-- Python `d.get(k)` / `d[k]` after a presence check: absent keys and stored
`None` both come out as `null`. -/
def recGetN (r : Rec) (k : String) : JVal :=
  (recFind r k).getD (JVal.prim JPrim.null)

/-- Python `v is None or k not in d` collapses to: the looked-up value is
`null`. -/
def isNullVal : JVal → Bool
  | JVal.prim JPrim.null => true
  | _ => false

/-- Python `x == s` for a string `s` and an arbitrary value `x`: true exactly
when `x` is that very string (SQL `col = 'text'` behaves the same way on the
stored column values, with `NULL` never matching). -/
def jvalEqStr : JVal → String → Bool
  | JVal.prim (JPrim.str t), s => t == s
  | _, _ => false

/-- Python truthiness of a JSON value (`if maximum_term:`). -/
def pyTruthy : JVal → Bool
  | JVal.prim JPrim.null => false
  | JVal.prim (JPrim.bool b) => b
  | JVal.prim (JPrim.int n) => n != 0
  | JVal.prim (JPrim.str s) => !(s == "")
  | JVal.arr l => !l.isEmpty

/-- Python `repr` of a scalar, as used inside `str()` of a list.  String
escaping inside `repr` is not modelled (no claim depends on it). -/
def pyReprPrim : JPrim → String
  | JPrim.null => "None"
  | JPrim.bool true => "True"
  | JPrim.bool false => "False"
  | JPrim.int n => toString n
  | JPrim.str s => "'" ++ s ++ "'"

/-- Python `str()` of a JSON value (used by `is_uuid_v4`, by
`Decimal(str(...))` and by f-string interpolation in `genesis_hash`). -/
def pyStr : JVal → String
  | JVal.prim (JPrim.str s) => s
  | JVal.prim p => pyReprPrim p
  | JVal.arr l => "[" ++ String.intercalate ", " (l.map pyReprPrim) ++ "]"

/-- Lower-casing used by `str(value).lower()`. -/
def strLower (s : String) : String :=
  (s.toList.map Char.toLower).asString

/-- Upper-casing used by `f"MISSING_{field.upper()}"`. -/
def strUpper (s : String) : String :=
  (s.toList.map Char.toUpper).asString

/-! ## UTF-8 and SHA-256 (`hash_chain.py`) -/

/-- UTF-8 encoding of a single code point, as byte values. -/
def utf8EncodeChar (c : Nat) : List Nat :=
  if c < 0x80 then [c]
  else if c < 0x800 then [0xC0 + c / 64, 0x80 + c % 64]
  else if c < 0x10000 then
    [0xE0 + c / 4096, 0x80 + c / 64 % 64, 0x80 + c % 64]
  else
    [0xF0 + c / 262144, 0x80 + c / 4096 % 64, 0x80 + c / 64 % 64, 0x80 + c % 64]

/-- UTF-8 bytes of a string (`s.encode('utf-8')`). -/
def utf8Bytes (s : String) : List Nat :=
  s.toList.foldr (fun c acc => utf8EncodeChar c.toNat ++ acc) []

/-- 32-bit truncation. -/
def m32 (n : Nat) : Nat := n % 4294967296

/-- Right rotation of a 32-bit word. -/
def rotr (n k : Nat) : Nat :=
  m32 ((n >>> k) ||| (n <<< (32 - k)))

/-- SHA-256 round constants. -/
def sha256K : List Nat :=
  [1116352408, 1899447441, 3049323471, 3921009573, 961987163, 1508970993,
   2453635748, 2870763221, 3624381080, 310598401, 607225278, 1426881987,
   1925078388, 2162078206, 2614888103, 3248222580, 3835390401, 4022224774,
   264347078, 604807628, 770255983, 1249150122, 1555081692, 1996064986,
   2554220882, 2821834349, 2952996808, 3210313671, 3336571891, 3584528711,
   113926993, 338241895, 666307205, 773529912, 1294757372, 1396182291,
   1695183700, 1986661051, 2177026350, 2456956037, 2730485921, 2820302411,
   3259730800, 3345764771, 3516065817, 3600352804, 4094571909, 275423344,
   430227734, 506948616, 659060556, 883997877, 958139571, 1322822218,
   1537002063, 1747873779, 1955562222, 2024104815, 2227730452, 2361852424,
   2428436474, 2756734187, 3204031479, 3329325298]

/-- Split a byte list into chunks of `sz` bytes (fuel-driven structural
recursion). -/
def chunkAux (sz : Nat) : Nat → List Nat → List (List Nat)
  | 0, _ => []
  | _, [] => []
  | fuel + 1, bs => bs.take sz :: chunkAux sz fuel (bs.drop sz)

def chunks (sz : Nat) (bs : List Nat) : List (List Nat) :=
  chunkAux sz (bs.length + 1) bs

/-- Big-endian word from four bytes. -/
def word32 (bs : List Nat) : Nat :=
  bs.foldl (fun acc b => acc * 256 + b) 0

/-- SHA-256 message schedule: extend 16 words to 64. -/
def sha256Extend : Nat → List Nat → List Nat
  | 0, w => w
  | fuel + 1, w =>
    let i := w.length
    let w15 := w.getD (i - 15) 0
    let w2 := w.getD (i - 2) 0
    let s0 := m32 (rotr w15 7 ^^^ rotr w15 18 ^^^ (w15 >>> 3))
    let s1 := m32 (rotr w2 17 ^^^ rotr w2 19 ^^^ (w2 >>> 10))
    sha256Extend fuel (w ++ [m32 (w.getD (i - 16) 0 + s0 + w.getD (i - 7) 0 + s1)])

/-- One SHA-256 compression round. -/
def sha256Round (st : List Nat) (kw : Nat × Nat) : List Nat :=
  match st with
  | [a, b, c, d, e, f, g, h] =>
    let s1 := rotr e 6 ^^^ rotr e 11 ^^^ rotr e 25
    let ch := (e &&& f) ^^^ ((m32 (4294967295 - e)) &&& g)
    let t1 := m32 (h + s1 + ch + kw.1 + kw.2)
    let s0 := rotr a 2 ^^^ rotr a 13 ^^^ rotr a 22
    let mj := (a &&& b) ^^^ (a &&& c) ^^^ (b &&& c)
    let t2 := m32 (s0 + mj)
    [m32 (t1 + t2), a, b, c, m32 (d + t1), e, f, g]
  | st => st

/-- Process one 64-byte block. -/
def sha256Block (h : List Nat) (block : List Nat) : List Nat :=
  let w := sha256Extend 48 ((chunks 4 block).map word32)
  let st := (sha256K.zip w).foldl sha256Round h
  (h.zip st).map (fun p => m32 (p.1 + p.2))

/-- SHA-256 padding: `0x80`, zeros, 8-byte big-endian bit length. -/
def sha256Pad (msg : List Nat) : List Nat :=
  let len := msg.length
  let zeros := (55 + 64 - len % 64) % 64
  let bitLen := len * 8
  msg ++ [0x80] ++ List.replicate zeros 0 ++
    ((List.range 8).reverse.map (fun i => bitLen / 256 ^ i % 256))

/-- Hex digit. -/
def hexDigit (n : Nat) : Char :=
  if n < 10 then Char.ofNat (48 + n) else Char.ofNat (87 + n)

/-- Two-digit lowercase hex of a byte. -/
def hexByte (n : Nat) : List Char :=
  [hexDigit (n / 16 % 16), hexDigit (n % 16)]

/-- `hashlib.sha256(data).hexdigest()` over a byte list. -/
def sha256_hash (data : List Nat) : String :=
  let blocks := chunks 64 (sha256Pad data)
  let h0 : List Nat :=
    [1779033703, 3144134277, 1013904242, 2773480762,
   1359893119, 2600822924, 528734635, 1541459225]
  let hFinal := blocks.foldl sha256Block h0
  ((hFinal.foldr (fun wrd acc =>
      hexByte (wrd / 16777216 % 256) ++ hexByte (wrd / 65536 % 256) ++
      hexByte (wrd / 256 % 256) ++ hexByte (wrd % 256) ++ acc) []) : List Char).asString

/-! ## Canonical JSON (`hash_chain.canonical_json`) -/

/-- JSON string escaping as produced by `json.dumps(..., ensure_ascii=False)`:
quote, backslash and control characters are escaped, everything else is kept
verbatim. -/
def jsonEscapeChar (c : Char) : List Char :=
  if c = '"' then ['\\', '"']
  else if c = '\\' then ['\\', '\\']
  else if c = '\n' then ['\\', 'n']
  else if c = '\r' then ['\\', 'r']
  else if c = '\t' then ['\\', 't']
  else if c.toNat = 8 then ['\\', 'b']
  else if c.toNat = 12 then ['\\', 'f']
  else if c.toNat < 32 then
    ['\\', 'u', '0', '0', hexDigit (c.toNat / 16), hexDigit (c.toNat % 16)]
  else [c]

def jsonEscape (s : String) : String :=
  (s.toList.foldr (fun c acc => jsonEscapeChar c ++ acc) []).asString

def jprimJson : JPrim → String
  | JPrim.null => "null"
  | JPrim.bool true => "true"
  | JPrim.bool false => "false"
  | JPrim.int n => toString n
  | JPrim.str s => "\"" ++ jsonEscape s ++ "\""

def jvalJson : JVal → String
  | JVal.prim p => jprimJson p
  | JVal.arr l => "[" ++ String.intercalate "," (l.map jprimJson) ++ "]"

/-- Insertion of a key/value pair into a key-sorted association list
(code-point order, like Python `sort_keys=True`). -/
def insertByKey (kv : String × JVal) : List (String × JVal) → List (String × JVal)
  | [] => [kv]
  | x :: xs => if kv.1 < x.1 then kv :: x :: xs else x :: insertByKey kv xs

def sortByKey (r : Rec) : List (String × JVal) :=
  r.foldr insertByKey []

/-- `canonical_json(record)`: keys sorted, separators `(',', ':')`, no
whitespace, `ensure_ascii=False`. -/
def canonical_json (r : Rec) : String :=
  "\x7b" ++
    String.intercalate ","
      ((sortByKey r).map (fun kv => "\"" ++ jsonEscape kv.1 ++ "\":" ++ jvalJson kv.2)) ++
  "\x7d"

/-! ## Hash chain (`hash_chain.py`) -/

/-- `genesis_hash(authority_id, genesis_timestamp)`. -/
def genesis_hash (authority_id genesis_timestamp : String) : String :=
  sha256_hash (utf8Bytes ("FIDES-GENESIS-" ++ authority_id ++ "-" ++ genesis_timestamp))

/-- `record_hash(record)`. -/
def record_hash (r : Rec) : String :=
  sha256_hash (utf8Bytes (canonical_json r))

/-- `compute_previous_hash(authority_id, record_timestamp, previous_record)`. -/
def compute_previous_hash (authority_id record_timestamp : String)
    (previous_record : Option Rec) : String :=
  match previous_record with
  | none => genesis_hash authority_id record_timestamp
  | some prev => record_hash prev

/-- `verify_chain_link(current_record, previous_record)`. -/
def verify_chain_link (current_record previous_record : Rec) : Bool :=
  jvalEqStr (recGetN current_record "previous_record_hash") (record_hash previous_record)

/-- `verify_genesis(record)`: the genesis hash is recomputed from the
record's own `authority_id` and `record_timestamp` fields (f-string
interpolation applies `str()` to them). -/
def verify_genesis (record : Rec) : Bool :=
  jvalEqStr (recGetN record "previous_record_hash")
    (genesis_hash (pyStr (recGetD record "authority_id" (JVal.prim (JPrim.str ""))))
                  (pyStr (recGetD record "record_timestamp" (JVal.prim (JPrim.str "")))))

/-! ## Datetimes (`records.is_iso8601`, `records.parse_date`) -/

/-- Python exceptions that can escape the functions modelled here. -/
inductive PyExc where
  | invalidOperation
  | typeError
deriving DecidableEq, Repr

/-- A Python `datetime`: wall-clock microseconds on a linear
proleptic-Gregorian scale, plus the UTC offset in seconds for aware values
(`none` = naive). -/
structure PyDateTime where
  wall : Int
  off : Option Int
deriving DecidableEq, Repr

/-- Python datetime comparison: naive with naive by wall clock, aware with
aware by UTC instant, mixing naive and aware raises `TypeError`. -/
def cmpDT (a b : PyDateTime) : Except PyExc Ordering :=
  match a.off, b.off with
  | none, none => Except.ok (compare a.wall b.wall)
  | some x, some y => Except.ok (compare (a.wall - x * 1000000) (b.wall - y * 1000000))
  | _, _ => Except.error PyExc.typeError

def isLeapYear (y : Nat) : Bool :=
  y % 4 == 0 && (y % 100 != 0 || y % 400 == 0)

def daysInMonth (y m : Nat) : Nat :=
  if m == 2 then (if isLeapYear y then 29 else 28)
  else if m == 4 || m == 6 || m == 9 || m == 11 then 30
  else 31

/-- Days since 1970-01-01 of a proleptic-Gregorian civil date. -/
def daysFromCivil (y : Int) (m d : Nat) : Int :=
  let y' : Int := if m ≤ 2 then y - 1 else y
  let era : Int := (if 0 ≤ y' then y' else y' - 399) / 400
  let yoe : Int := y' - era * 400
  let mp : Int := if 2 < m then (m : Int) - 3 else (m : Int) + 9
  let doy : Int := (153 * mp + 2) / 5 + (d : Int) - 1
  let doe : Int := yoe * 365 + yoe / 4 - yoe / 100 + doy
  era * 146097 + doe - 719468

/-- Exactly `n` decimal digits from the front. -/
def takeDigits : Nat → List Char → Option (List Char × List Char)
  | 0, cs => some ([], cs)
  | _ + 1, [] => none
  | n + 1, c :: cs =>
    if c.isDigit then (takeDigits n cs).map (fun p => (c :: p.1, p.2)) else none

def digitsVal (cs : List Char) : Nat :=
  cs.foldl (fun a c => a * 10 + (c.toNat - 48)) 0

def expectChar (c : Char) : List Char → Option (List Char)
  | x :: xs => if x == c then some xs else none
  | [] => none

/-- Optional `:NN` component (offset/time continuation). -/
def parseColonPair (cs : List Char) : Option (Nat × List Char) := do
  let cs ← expectChar ':' cs
  let (ds, cs) ← takeDigits 2 cs
  pure (digitsVal ds, cs)

/-- UTC offset `±HH[:MM[:SS]]` or `±HHMM[SS]`, in seconds. -/
def parseOffset (sign : Char) (cs : List Char) : Option (Int × List Char) := do
  let (hd, cs) ← takeDigits 2 cs
  let hh := digitsVal hd
  let (mm, ss, cs) ←
    match parseColonPair cs with
    | some (mm, cs1) =>
      match parseColonPair cs1 with
      | some (ss, cs2) => some (mm, ss, cs2)
      | none => some (mm, 0, cs1)
    | none =>
      match takeDigits 2 cs with
      | some (md, cs1) =>
        match takeDigits 2 cs1 with
        | some (sd, cs2) => some (digitsVal md, digitsVal sd, cs2)
        | none => some (digitsVal md, 0, cs1)
      | none => some (0, 0, cs)
  if hh ≤ 23 && mm ≤ 59 && ss ≤ 59 then
    let total : Int := (hh * 3600 + mm * 60 + ss : Nat)
    pure (if sign == '-' then -total else total, cs)
  else none

/-- Fractional seconds: one or more digits, truncated/padded to
microseconds. -/
def parseFrac (cs : List Char) : Option (Nat × List Char) :=
  let ds := cs.takeWhile Char.isDigit
  if ds.isEmpty then none
  else
    let six := ds.take 6 ++ List.replicate (6 - ds.length) '0'
    some (digitsVal six, cs.dropWhile Char.isDigit)

/-- Time-of-day `HH[:MM[:SS[.frac|,frac]]]`, as (seconds, microseconds). -/
def parseTime (cs : List Char) : Option (Nat × Nat × List Char) := do
  let (hd, cs) ← takeDigits 2 cs
  let hh := digitsVal hd
  let (mm, cs) ← match parseColonPair cs with
    | some (mm, cs1) => some (mm, cs1)
    | none => some (0, cs)
  let (ss, us, cs) ←
    match parseColonPair cs with
    | some (ss, cs1) =>
      match cs1 with
      | '.' :: rest => (parseFrac rest).map (fun p => (ss, p.1, p.2))
      | ',' :: rest => (parseFrac rest).map (fun p => (ss, p.1, p.2))
      | _ => some (ss, 0, cs1)
    | none => some (0, 0, cs)
  if hh ≤ 23 && mm ≤ 59 && ss ≤ 59 then
    pure (hh * 3600 + mm * 60 + ss, us, cs)
  else none

/-- `datetime.fromisoformat` on the grammar
`YYYY-MM-DD[<any sep>HH:MM[:SS[.frac]]][±HH[:MM[:SS]]]` (the forms this
system produces; the separator may be any single character, per
Python >= 3.11). -/
def parseDateCore (cs : List Char) : Option PyDateTime := do
  let (yd, cs) ← takeDigits 4 cs
  let cs ← expectChar '-' cs
  let (md, cs) ← takeDigits 2 cs
  let cs ← expectChar '-' cs
  let (dd, cs) ← takeDigits 2 cs
  let y := digitsVal yd
  let m := digitsVal md
  let d := digitsVal dd
  if 1 ≤ y && 1 ≤ m && m ≤ 12 && 1 ≤ d && d ≤ daysInMonth y m then
    let base : Int := daysFromCivil (y : Int) m d * 86400000000
    match cs with
    | [] => pure { wall := base, off := none }
    | _ :: rest => do
      let (secs, us, cs) ← parseTime rest
      let wall : Int := base + (secs : Int) * 1000000 + (us : Int)
      match cs with
      | [] => pure { wall := wall, off := none }
      | '+' :: rest => do
        let (off, cs) ← parseOffset '+' rest
        match cs with
        | [] => pure { wall := wall, off := some off }
        | _ => none
      | '-' :: rest => do
        let (off, cs) ← parseOffset '-' rest
        match cs with
        | [] => pure { wall := wall, off := some off }
        | _ => none
      | _ => none
  else none

/-- `value.replace('Z', '+00:00')` — every occurrence is replaced. -/
def replZ : List Char → List Char
  | [] => []
  | 'Z' :: rest => '+' :: '0' :: '0' :: ':' :: '0' :: '0' :: replZ rest
  | c :: rest => c :: replZ rest

/-- `parse_date(value)`: `datetime.fromisoformat(value.replace('Z', '+00:00'))`.
The source raises on unparsable input; all call sites guard with
`is_iso8601` first, so `Option` is a faithful model. -/
def parse_date (s : String) : Option PyDateTime :=
  parseDateCore (replZ s.toList)

/-- `is_iso8601` applied to a genuine string. -/
def is_iso8601_str (s : String) : Bool :=
  (parse_date s).isSome

/-- `is_iso8601(value)` on a JSON value: non-strings fail with
`AttributeError` on `.replace`, which the function catches and turns into
`False`. -/
def is_iso8601 : JVal → Bool
  | JVal.prim (JPrim.str s) => is_iso8601_str s
  | _ => false

/-- `parse_date` on a JSON value (call sites guard with `is_iso8601`). -/
def parseDateVal : JVal → Option PyDateTime
  | JVal.prim (JPrim.str s) => parse_date s
  | _ => none

/-! ## Decimals (`decimal.Decimal` under the default context) -/

/-- A Python `Decimal`: finite values are coefficient/exponent pairs
(value `m * 10 ^ e`), plus signed infinities and quiet/signaling NaNs. -/
inductive PyDec where
  | fin (m : Int) (e : Int)
  | inf (neg : Bool)
  | nan (signaling : Bool)
deriving DecidableEq, Repr

/-- Number of decimal digits of a natural number (fuel-driven). -/
def numDigitsAux : Nat → Nat → Nat
  | _, 0 => 0
  | n, fuel + 1 => if n < 10 then 1 else numDigitsAux (n / 10) fuel + 1

def numDigits (n : Nat) : Nat :=
  numDigitsAux n (n + 1)

/-- Rounding of an exact coefficient/exponent result to the default
context's 28 significant digits, `ROUND_HALF_EVEN` — exactly what Python's
decimal `+` does after computing the exact sum. -/
def round28 (m e : Int) : PyDec :=
  let na := m.natAbs
  let d := numDigits na
  if d ≤ 28 then PyDec.fin m e
  else
    let sh := d - 28
    let p : Nat := 10 ^ sh
    let q := na / p
    let r := na % p
    let q' := if p < 2 * r then q + 1
              else if 2 * r < p then q
              else if q % 2 == 1 then q + 1 else q
    PyDec.fin (if m < 0 then -(q' : Int) else (q' : Int)) (e + (sh : Int))

/-- Three-way comparison of two finite decimals by value. -/
def finCompare (m1 e1 m2 e2 : Int) : Ordering :=
  let a := if e2 ≤ e1 then m1 * 10 ^ (e1 - e2).toNat else m1
  let b := if e2 ≤ e1 then m2 else m2 * 10 ^ (e2 - e1).toNat
  if a < b then Ordering.lt else if a = b then Ordering.eq else Ordering.gt

/-- Python decimal comparison: `<`, `<=`, `>`, `>=` raise
`InvalidOperation` (trapped by the default context) when either operand is a
NaN; infinities compare normally. -/
def decCmp : PyDec → PyDec → Except PyExc Ordering
  | PyDec.nan _, _ => Except.error PyExc.invalidOperation
  | _, PyDec.nan _ => Except.error PyExc.invalidOperation
  | PyDec.inf n1, PyDec.inf n2 =>
    Except.ok (if n1 == n2 then Ordering.eq else if n1 then Ordering.lt else Ordering.gt)
  | PyDec.inf n, PyDec.fin _ _ => Except.ok (if n then Ordering.lt else Ordering.gt)
  | PyDec.fin _ _, PyDec.inf n => Except.ok (if n then Ordering.gt else Ordering.lt)
  | PyDec.fin m1 e1, PyDec.fin m2 e2 => Except.ok (finCompare m1 e1 m2 e2)

/-- Python decimal addition under the default context: signaling NaNs and
`inf + (-inf)` raise `InvalidOperation`, quiet NaNs propagate, finite sums
are computed exactly and rounded to 28 significant digits. -/
def decAdd : PyDec → PyDec → Except PyExc PyDec
  | PyDec.nan true, _ => Except.error PyExc.invalidOperation
  | _, PyDec.nan true => Except.error PyExc.invalidOperation
  | PyDec.nan false, _ => Except.ok (PyDec.nan false)
  | _, PyDec.nan false => Except.ok (PyDec.nan false)
  | PyDec.inf a, PyDec.inf b =>
    if a == b then Except.ok (PyDec.inf a) else Except.error PyExc.invalidOperation
  | PyDec.inf a, PyDec.fin _ _ => Except.ok (PyDec.inf a)
  | PyDec.fin _ _, PyDec.inf b => Except.ok (PyDec.inf b)
  | PyDec.fin m1 e1, PyDec.fin m2 e2 =>
    let e := min e1 e2
    Except.ok (round28 (m1 * 10 ^ (e1 - e).toNat + m2 * 10 ^ (e2 - e).toNat) e)

/-- Split at the first `e` (input already lower-cased). -/
def splitAtE : List Char → (List Char × Option (List Char))
  | [] => ([], none)
  | 'e' :: rest => ([], some rest)
  | c :: rest =>
    let p := splitAtE rest
    (c :: p.1, p.2)

/-- Exponent of a decimal literal: optional sign, one or more digits. -/
def parseExpPart (cs : List Char) : Option Int :=
  let (sign, ds) := match cs with
    | '+' :: rest => (false, rest)
    | '-' :: rest => (true, rest)
    | rest => (false, rest)
  if ds.isEmpty || !(ds.all Char.isDigit) then none
  else some (if sign then -(digitsVal ds : Int) else (digitsVal ds : Int))

/-- Integer and fractional digits of a decimal mantissa (at least one digit
overall). -/
def parseMantissa (cs : List Char) : Option (List Char × List Char) :=
  let ip := cs.takeWhile Char.isDigit
  let rest := cs.dropWhile Char.isDigit
  match rest with
  | [] => if ip.isEmpty then none else some (ip, [])
  | '.' :: fs =>
    if fs.all Char.isDigit && !(ip.isEmpty && fs.isEmpty) then some (ip, fs) else none
  | _ => none

/-- `Decimal(string)`: construction is exact (no context rounding).
Surrounding whitespace is allowed; `Infinity`/`Inf`, `NaN` and `sNaN`
(case-insensitive, optional sign, optional NaN diagnostic digits) are
accepted.  `'_'` digit separators are not modelled. -/
def parseDec (s : String) : Option PyDec :=
  let cs := ((s.toList.dropWhile Char.isWhitespace).reverse.dropWhile Char.isWhitespace).reverse
  let (neg, cs) := match cs with
    | '+' :: rest => (false, rest)
    | '-' :: rest => (true, rest)
    | rest => (false, rest)
  let low := cs.map Char.toLower
  if low == "inf".toList || low == "infinity".toList then some (PyDec.inf neg)
  else if low.take 3 == "nan".toList && (low.drop 3).all Char.isDigit then
    some (PyDec.nan false)
  else if low.take 4 == "snan".toList && (low.drop 4).all Char.isDigit then
    some (PyDec.nan true)
  else
    let (mpart, epart) := splitAtE low
    match parseMantissa mpart with
    | none => none
    | some (ip, fp) =>
      let expv : Option Int := match epart with
        | none => some 0
        | some ecs => parseExpPart ecs
      match expv with
      | none => none
      | some ev =>
        let coeff : Int := (digitsVal (ip ++ fp) : Int)
        some (PyDec.fin (if neg then -coeff else coeff) (ev - (fp.length : Int)))

/-- `is_positive_decimal(value)`: `Decimal(str(value)) > 0` with every
exception caught (a NaN comparison raises inside the `try`, hence `False`;
`Infinity > 0` is `True`). -/
def is_positive_decimal (v : JVal) : Bool :=
  match parseDec (pyStr v) with
  | some (PyDec.fin m _) => decide (0 < m)
  | some (PyDec.inf neg) => !neg
  | some (PyDec.nan _) => false
  | none => false

/-! ## UUID v4 check (`records.is_uuid_v4`) -/

def isHexLower (c : Char) : Bool :=
  c.isDigit || ('a' ≤ c && c ≤ 'f')

/-- The regex `^[0-9a-f]{8}-[0-9a-f]{4}-4[0-9a-f]{3}-[89ab][0-9a-f]{3}-[0-9a-f]{12}$`
on an already lower-cased character list. -/
def uuidMatch (cs : List Char) : Bool :=
  match cs.splitOn '-' with
  | [g1, g2, g3, g4, g5] =>
    g1.length == 8 && g2.length == 4 && g3.length == 4 && g4.length == 4 &&
    g5.length == 12 &&
    (g1 ++ g2 ++ g3 ++ g4 ++ g5).all isHexLower &&
    (match g3 with | '4' :: _ => true | _ => false) &&
    (match g4 with
     | c :: _ => c == '8' || c == '9' || c == 'a' || c == 'b'
     | _ => false)
  | _ => false

/-- `is_uuid_v4(value)`: `re.match(pattern, str(value).lower())`; `$` in a
Python regex also matches just before one trailing newline. -/
def is_uuid_v4 (v : JVal) : Bool :=
  let cs := (strLower (pyStr v)).toList
  let cs := match cs.getLast? with
    | some c => if c == '\n' then cs.dropLast else cs
    | none => cs
  uuidMatch cs

/-! ## Record validation (`records.validate_dr`, `records.validate_rr`) -/

def requiredDR : List String :=
  ["decision_id", "authority_id", "deciders_id", "act_type",
   "currency", "maximum_value", "beneficiary", "legal_basis",
   "decision_date", "previous_record_hash", "record_timestamp",
   "signatures"]

def requiredRR : List String :=
  ["revocation_id", "target_decision_id", "authority_id",
   "deciders_id", "revocation_reason", "revocation_date",
   "previous_record_hash", "record_timestamp", "signatures"]

/-- `not isinstance(x, list) or len(x) == 0`. -/
def notNonEmptyList : JVal → Bool
  | JVal.arr l => l.isEmpty
  | _ => true

/-- `not isinstance(x, str) or len(x) == 0`. -/
def notNonEmptyStr : JVal → Bool
  | JVal.prim (JPrim.str s) => s.isEmpty
  | _ => true

/-- The `decision_date <= record_timestamp` rule of `validate_dr`: checked
only when both parse, and the `datetime` comparison raises `TypeError`
(uncaught) when exactly one of the two is timezone-aware. -/
def drDateOrderErrors (dd rt : JVal) : Except PyExc (List String) :=
  if is_iso8601 dd && is_iso8601 rt then
    match parseDateVal dd, parseDateVal rt with
    | some a, some b =>
      match cmpDT a b with
      | Except.error e => Except.error e
      | Except.ok o =>
        Except.ok (if o == Ordering.gt then ["DECISION_DATE_AFTER_RECORD_TIMESTAMP"] else [])
    | _, _ => Except.ok []
  else Except.ok []

/-- `validate_dr(dr)`.  Missing/`None` required fields short-circuit; the
remaining rules each append their code.  The result is `Except` because the
date-order rule can raise (see `drDateOrderErrors`). -/
def validate_dr (dr : Rec) : Except PyExc (Bool × List String) :=
  let missing := (requiredDR.filter (fun f => isNullVal (recGetN dr f))).map
    (fun f => "MISSING_" ++ strUpper f)
  if !missing.isEmpty then Except.ok (false, missing)
  else
    let e1 := if !is_uuid_v4 (recGetN dr "decision_id") then ["INVALID_DECISION_ID"] else []
    let e2 := if notNonEmptyList (recGetN dr "deciders_id") then ["INVALID_DECIDERS_ID"] else []
    let e3 := if notNonEmptyStr (recGetN dr "act_type") then ["INVALID_ACT_TYPE"] else []
    let e4 := if !is_positive_decimal (recGetN dr "maximum_value") then ["INVALID_MAXIMUM_VALUE"] else []
    let e5 := if !is_iso8601 (recGetN dr "decision_date") then ["INVALID_DECISION_DATE"] else []
    let e6 := if !is_iso8601 (recGetN dr "record_timestamp") then ["INVALID_RECORD_TIMESTAMP"] else []
    match drDateOrderErrors (recGetN dr "decision_date") (recGetN dr "record_timestamp") with
    | Except.error e => Except.error e
    | Except.ok e7 =>
      let e8 := if notNonEmptyList (recGetN dr "signatures") then ["INVALID_SIGNATURES"] else []
      let e9 := match recGetN dr "deciders_id", recGetN dr "signatures" with
        | JVal.arr a, JVal.arr b =>
          if a.length != b.length then ["DECIDERS_SIGNATURES_MISMATCH"] else []
        | _, _ => []
      let errors := e1 ++ e2 ++ e3 ++ e4 ++ e5 ++ e6 ++ e7 ++ e8 ++ e9
      Except.ok (errors.isEmpty, errors)

/-- `validate_rr(rr)`: total — no cross-field date comparison, so nothing
can raise. -/
def validate_rr (rr : Rec) : Bool × List String :=
  let missing := (requiredRR.filter (fun f => isNullVal (recGetN rr f))).map
    (fun f => "MISSING_" ++ strUpper f)
  if !missing.isEmpty then (false, missing)
  else
    let e1 := if !is_uuid_v4 (recGetN rr "revocation_id") then ["INVALID_REVOCATION_ID"] else []
    let e2 := if !is_uuid_v4 (recGetN rr "target_decision_id") then ["INVALID_TARGET_DECISION_ID"] else []
    let e3 := if notNonEmptyList (recGetN rr "deciders_id") then ["INVALID_DECIDERS_ID"] else []
    let e4 := if !is_iso8601 (recGetN rr "revocation_date") then ["INVALID_REVOCATION_DATE"] else []
    let e5 := if !is_iso8601 (recGetN rr "record_timestamp") then ["INVALID_RECORD_TIMESTAMP"] else []
    let e6 := if notNonEmptyList (recGetN rr "signatures") then ["INVALID_SIGNATURES"] else []
    let errors := e1 ++ e2 ++ e3 ++ e4 ++ e5 ++ e6
    (errors.isEmpty, errors)

/-! ## Ledger (`ledger.FidesLedger`) -/

/-- One row of the `payments` table (all columns are TEXT; `created_at` is
irrelevant to every claim). -/
structure PaymentRow where
  payment_id : String
  decision_id : String
  beneficiary : String
  currency : String
  value : String
  payment_date : String
deriving DecidableEq, Repr

/-- Ledger state: the ordered record list (the `records` table, by
ascending rowid) and the payment log. -/
structure FidesLedger where
  records : List Rec
  payments : List PaymentRow
deriving DecidableEq, Repr

def emptyLedger : FidesLedger := { records := [], payments := [] }

/-- Error taxonomy of the spec (§7).  The Python code raises `ValueError`
everywhere; the constructor tells which taxonomy class the raise site
belongs to.  `pyexc` propagates a Python-level exception escaping from a
callee (e.g. `validate_dr`). -/
inductive Err where
  | validation (codes : List String)
  | chain (msg : String)
  | lookup (msg : String)
  | pyexc (e : PyExc)
deriving DecidableEq, Repr

/-- `FidesLedger.append_record`: validates the hash chain (genesis check on
an empty ledger, link check against the last stored record otherwise) and
raises before inserting on failure; on success the record goes to the end
and the record hash is returned. -/
def FidesLedger.append_record (l : FidesLedger) (record : Rec) :
    Except Err (String × FidesLedger) :=
  match l.records.getLast? with
  | none =>
    if !verify_genesis record then Except.error (Err.chain "Invalid genesis hash")
    else Except.ok (record_hash record,
      { records := l.records ++ [record], payments := l.payments })
  | some last =>
    if !verify_chain_link record last then Except.error (Err.chain "Hash chain validation failed")
    else Except.ok (record_hash record,
      { records := l.records ++ [record], payments := l.payments })

/-- The record-type column: `record.get('record_type', 'DR')` at insert
time. -/
def recordTypeCol (r : Rec) : JVal :=
  recGetD r "record_type" (JVal.prim (JPrim.str "DR"))

/-- `find_decision_record(decision_id)`: first stored record whose
`decision_id` column matches and whose type column is `DR` or `SDR`. -/
def FidesLedger.find_decision_record (l : FidesLedger) (decision_id : String) : Option Rec :=
  l.records.find? (fun r =>
    jvalEqStr (recGetN r "decision_id") decision_id &&
    (jvalEqStr (recordTypeCol r) "DR" || jvalEqStr (recordTypeCol r) "SDR"))

/-- `find_revocation_record(decision_id)`: first stored `RR` whose
`target_decision_id` column matches. -/
def FidesLedger.find_revocation_record (l : FidesLedger) (decision_id : String) : Option Rec :=
  l.records.find? (fun r =>
    jvalEqStr (recGetN r "target_decision_id") decision_id &&
    jvalEqStr (recordTypeCol r) "RR")

/-- `is_revoked(decision_id)`. -/
def FidesLedger.is_revoked (l : FidesLedger) (decision_id : String) : Bool :=
  (l.find_revocation_record decision_id).isSome

/-- `record_payment(...)`: appends to the payment log (the table's UNIQUE
constraint on `payment_id` is a storage concern, out of scope per the
spec). -/
def FidesLedger.record_payment (l : FidesLedger) (row : PaymentRow) : FidesLedger :=
  { records := l.records, payments := l.payments ++ [row] }

/-- `sum_payments(decision_id)`: `Decimal('0')` plus each stored value in
insertion order, each addition rounding under the default context.  A
malformed stored value raises (uncaught) `InvalidOperation`.  The Python
function returns `str(total)`; `Decimal(str(d))` round-trips losslessly, so
the sum is modelled as the decimal value itself. -/
def FidesLedger.sum_payments (l : FidesLedger) (decision_id : String) :
    Except PyExc PyDec :=
  (l.payments.filter (fun row => row.decision_id == decision_id)).foldl
    (fun acc row =>
      match acc with
      | Except.error e => Except.error e
      | Except.ok tot =>
        match parseDec row.value with
        | none => Except.error PyExc.invalidOperation
        | some v => decAdd tot v)
    (Except.ok (PyDec.fin 0 0))

/-- Inner loop of `verify_chain_integrity`: first index `>= i` whose link to
its predecessor fails. -/
def firstBadLink (prev : Rec) : List Rec → Nat → Option Nat
  | [], _ => none
  | r :: rest, i =>
    if !verify_chain_link r prev then some i else firstBadLink r rest (i + 1)

/-- `verify_chain_integrity()`: `(valid, first_invalid_index)`. -/
def FidesLedger.verify_chain_integrity (l : FidesLedger) : Bool × Option Nat :=
  match l.records with
  | [] => (true, none)
  | r0 :: rest =>
    if !verify_genesis r0 then (false, some 0)
    else
      match firstBadLink r0 rest 1 with
      | some i => (false, some i)
      | none => (true, none)

/-! ## Authorization engine (`verify.py`) -/

/-- `verify.Payment` (all fields are `str` per the dataclass). -/
structure Payment where
  decision_id : String
  beneficiary : String
  currency : String
  value : String
  payment_date : String
deriving DecidableEq, Repr

/-- Step 8 of the engine: the SDR expiry check.  Shared verbatim by both
engine variants in the source.  `Except.ok true` = payment survives,
`Except.ok false` = expired; comparing a naive with an aware datetime
raises. -/
def termCheck (dr : Rec) (payment_dt : PyDateTime) : Except PyExc Bool :=
  if jvalEqStr (recGetN dr "record_type") "SDR" then
    let mt := recGetN dr "maximum_term"
    if pyTruthy mt && is_iso8601 mt then
      match parseDateVal mt with
      | some mdt =>
        match cmpDT payment_dt mdt with
        | Except.error e => Except.error e
        | Except.ok o => Except.ok (!(o == Ordering.gt))
      | none => Except.ok true
    else Except.ok true
  else Except.ok true

/-- `is_payment_authorized(ledger, payment)`.  The `Except` layer records
the raise sites the Python code actually has: `validate_dr`'s date-order
`TypeError`, the naive/aware `TypeError` of steps 4 and 8, and the
`InvalidOperation`s of NaN comparison, `sum_payments` on a malformed log
entry, and NaN/infinity arithmetic (none of them caught by the function's
single `try` around the two `Decimal` constructors). -/
def is_payment_authorized (ledger : FidesLedger) (payment : Payment) :
    Except PyExc Bool :=
  match ledger.find_decision_record payment.decision_id with
  | none => Except.ok false
  | some dr =>
    if ledger.is_revoked payment.decision_id then Except.ok false
    else
      match validate_dr dr with
      | Except.error e => Except.error e
      | Except.ok (valid, _) =>
        if !valid then Except.ok false
        else if !is_iso8601_str payment.payment_date then Except.ok false
        else if !is_iso8601 (recGetD dr "decision_date" (JVal.prim (JPrim.str ""))) then
          Except.ok false
        else
          match parse_date payment.payment_date, parseDateVal (recGetN dr "decision_date") with
          | some payment_dt, some decision_dt =>
            (match cmpDT payment_dt decision_dt with
             | Except.error e => Except.error e
             | Except.ok ord =>
               if ord == Ordering.lt then Except.ok false
               else if !jvalEqStr (recGetN dr "beneficiary") payment.beneficiary then
                 Except.ok false
               else if !jvalEqStr (recGetN dr "currency") payment.currency then
                 Except.ok false
               else
                 match parseDec payment.value,
                       parseDec (pyStr (recGetD dr "maximum_value" (JVal.prim (JPrim.str "0")))) with
                 | some payment_value, some maximum_value =>
                   (match decCmp payment_value (PyDec.fin 0 0) with
                    | Except.error e => Except.error e
                    | Except.ok o1 =>
                      if !(o1 == Ordering.gt) then Except.ok false
                      else
                        match ledger.sum_payments payment.decision_id with
                        | Except.error e => Except.error e
                        | Except.ok total_paid =>
                          match decAdd total_paid payment_value with
                          | Except.error e => Except.error e
                          | Except.ok s =>
                            match decCmp s maximum_value with
                            | Except.error e => Except.error e
                            | Except.ok o2 =>
                              if o2 == Ordering.gt then Except.ok false
                              else
                                match termCheck dr payment_dt with
                                | Except.error e => Except.error e
                                | Except.ok pass => Except.ok pass)
                 | _, _ => Except.ok false
             )
          | _, _ => Except.ok false

/-- `is_payment_authorized_with_reason(ledger, payment)`: same ordered rule
chain, paired with the reason code. -/
def is_payment_authorized_with_reason (ledger : FidesLedger) (payment : Payment) :
    Except PyExc (Bool × String) :=
  match ledger.find_decision_record payment.decision_id with
  | none => Except.ok (false, "RECORD_NOT_FOUND")
  | some dr =>
    if ledger.is_revoked payment.decision_id then Except.ok (false, "DECISION_REVOKED")
    else
      match validate_dr dr with
      | Except.error e => Except.error e
      | Except.ok (valid, errors) =>
        if !valid then
          Except.ok (false, "INVALID_RECORD: [" ++
            String.intercalate ", " (errors.map (fun s => "'" ++ s ++ "'")) ++ "]")
        else if !is_iso8601_str payment.payment_date then
          Except.ok (false, "INVALID_PAYMENT_DATE")
        else if !is_iso8601 (recGetD dr "decision_date" (JVal.prim (JPrim.str ""))) then
          Except.ok (false, "INVALID_DECISION_DATE")
        else
          match parse_date payment.payment_date, parseDateVal (recGetN dr "decision_date") with
          | some payment_dt, some decision_dt =>
            (match cmpDT payment_dt decision_dt with
             | Except.error e => Except.error e
             | Except.ok ord =>
               if ord == Ordering.lt then Except.ok (false, "PAYMENT_BEFORE_DECISION")
               else if !jvalEqStr (recGetN dr "beneficiary") payment.beneficiary then
                 Except.ok (false, "BENEFICIARY_MISMATCH")
               else if !jvalEqStr (recGetN dr "currency") payment.currency then
                 Except.ok (false, "CURRENCY_MISMATCH")
               else
                 match parseDec payment.value,
                       parseDec (pyStr (recGetD dr "maximum_value" (JVal.prim (JPrim.str "0")))) with
                 | some payment_value, some maximum_value =>
                   (match decCmp payment_value (PyDec.fin 0 0) with
                    | Except.error e => Except.error e
                    | Except.ok o1 =>
                      if !(o1 == Ordering.gt) then Except.ok (false, "INVALID_PAYMENT_VALUE")
                      else
                        match ledger.sum_payments payment.decision_id with
                        | Except.error e => Except.error e
                        | Except.ok total_paid =>
                          match decAdd total_paid payment_value with
                          | Except.error e => Except.error e
                          | Except.ok s =>
                            match decCmp s maximum_value with
                            | Except.error e => Except.error e
                            | Except.ok o2 =>
                              if o2 == Ordering.gt then
                                Except.ok (false, "EXCEEDS_MAXIMUM_VALUE")
                              else
                                match termCheck dr payment_dt with
                                | Except.error e => Except.error e
                                | Except.ok pass =>
                                  if pass then Except.ok (true, "AUTHORIZED")
                                  else Except.ok (false, "EXCEPTION_EXPIRED"))
                 | _, _ => Except.ok (false, "INVALID_NUMERIC_VALUE")
             )
          | _, _ => Except.ok (false, "INVALID_PAYMENT_DATE")

/-! ## Record factory (`records.create_decision_record`,
`records.create_revocation_record`)

`generate_uuid()` and `current_timestamp()` are impure; they are modelled by
the explicit parameters `genId` and `nowTs` holding the values those calls
would return. -/

/-- The DR dict assembled by `create_decision_record`. -/
def mkDRDict (ledger : FidesLedger) (authority_id : String) (deciders_id : List String)
    (act_type currency maximum_value beneficiary legal_basis decision_date : String)
    (signatures : List String) (decision_id record_timestamp : Option String)
    (genId nowTs : String) : Rec :=
  let did := decision_id.getD genId
  let ts := record_timestamp.getD nowTs
  let previous_hash := compute_previous_hash authority_id ts ledger.records.getLast?
  [("record_type", JVal.prim (JPrim.str "DR")),
   ("decision_id", JVal.prim (JPrim.str did)),
   ("authority_id", JVal.prim (JPrim.str authority_id)),
   ("deciders_id", JVal.arr (deciders_id.map JPrim.str)),
   ("act_type", JVal.prim (JPrim.str act_type)),
   ("currency", JVal.prim (JPrim.str currency)),
   ("maximum_value", JVal.prim (JPrim.str maximum_value)),
   ("beneficiary", JVal.prim (JPrim.str beneficiary)),
   ("legal_basis", JVal.prim (JPrim.str legal_basis)),
   ("decision_date", JVal.prim (JPrim.str decision_date)),
   ("previous_record_hash", JVal.prim (JPrim.str previous_hash)),
   ("record_timestamp", JVal.prim (JPrim.str ts)),
   ("signatures", JVal.arr (signatures.map JPrim.str))]

/-- `create_decision_record(...)`: derive ids/timestamp/link, assemble,
validate (raising `ValidationError` with all codes), append via the
ledger. -/
def create_decision_record (ledger : FidesLedger) (authority_id : String)
    (deciders_id : List String)
    (act_type currency maximum_value beneficiary legal_basis decision_date : String)
    (signatures : List String) (decision_id record_timestamp : Option String)
    (genId nowTs : String) : Except Err (Rec × FidesLedger) :=
  let dr := mkDRDict ledger authority_id deciders_id act_type currency maximum_value
    beneficiary legal_basis decision_date signatures decision_id record_timestamp genId nowTs
  match validate_dr dr with
  | Except.error e => Except.error (Err.pyexc e)
  | Except.ok (valid, errors) =>
    if !valid then Except.error (Err.validation errors)
    else
      match ledger.append_record dr with
      | Except.error e => Except.error e
      | Except.ok (_, l') => Except.ok (dr, l')

/-- The RR dict assembled by `create_revocation_record` (revocation_date
defaults to the resolved record_timestamp). -/
def mkRRDict (ledger : FidesLedger) (target_decision_id authority_id : String)
    (deciders_id : List String) (revocation_reason : String) (signatures : List String)
    (revocation_id revocation_date record_timestamp : Option String)
    (genId nowTs : String) : Rec :=
  let rvid := revocation_id.getD genId
  let ts := record_timestamp.getD nowTs
  let rd := revocation_date.getD ts
  let previous_hash := compute_previous_hash authority_id ts ledger.records.getLast?
  [("record_type", JVal.prim (JPrim.str "RR")),
   ("revocation_id", JVal.prim (JPrim.str rvid)),
   ("target_decision_id", JVal.prim (JPrim.str target_decision_id)),
   ("authority_id", JVal.prim (JPrim.str authority_id)),
   ("deciders_id", JVal.arr (deciders_id.map JPrim.str)),
   ("revocation_reason", JVal.prim (JPrim.str revocation_reason)),
   ("revocation_date", JVal.prim (JPrim.str rd)),
   ("previous_record_hash", JVal.prim (JPrim.str previous_hash)),
   ("record_timestamp", JVal.prim (JPrim.str ts)),
   ("signatures", JVal.arr (signatures.map JPrim.str))]

/-- `create_revocation_record(...)`: LookupError when the target decision
is absent or already revoked, then the same derive/validate/append
pattern. -/
def create_revocation_record (ledger : FidesLedger) (target_decision_id authority_id : String)
    (deciders_id : List String) (revocation_reason : String) (signatures : List String)
    (revocation_id revocation_date record_timestamp : Option String)
    (genId nowTs : String) : Except Err (Rec × FidesLedger) :=
  match ledger.find_decision_record target_decision_id with
  | none => Except.error (Err.lookup ("Target decision not found: " ++ target_decision_id))
  | some _ =>
    if ledger.is_revoked target_decision_id then
      Except.error (Err.lookup ("Decision already revoked: " ++ target_decision_id))
    else
      let rr := mkRRDict ledger target_decision_id authority_id deciders_id
        revocation_reason signatures revocation_id revocation_date record_timestamp genId nowTs
      match validate_rr rr with
      | (valid, errors) =>
        if !valid then Except.error (Err.validation errors)
        else
          match ledger.append_record rr with
          | Except.error e => Except.error e
          | Except.ok (_, l') => Except.ok (rr, l')

/-! ## Concrete sample data (shared by several claims' witnesses and
counterexamples) -/

/-- A valid UUIDv4 used by the sample decision. -/
def U0 : String := "1b4e28ba-2fa1-4d3b-8000-000000000000"

/-- A second valid UUIDv4. -/
def U1 : String := "2b4e28ba-2fa1-4d3b-9000-000000000000"

/-- A fully valid Decision Record. -/
def drRec : Rec :=
  [("record_type", JVal.prim (JPrim.str "DR")),
   ("decision_id", JVal.prim (JPrim.str U0)),
   ("authority_id", JVal.prim (JPrim.str "AUTH-1")),
   ("deciders_id", JVal.arr [JPrim.str "D1"]),
   ("act_type", JVal.prim (JPrim.str "grant")),
   ("currency", JVal.prim (JPrim.str "BRL")),
   ("maximum_value", JVal.prim (JPrim.str "10000.00")),
   ("beneficiary", JVal.prim (JPrim.str "BEN-1")),
   ("legal_basis", JVal.prim (JPrim.str "L1")),
   ("decision_date", JVal.prim (JPrim.str "2024-01-15T10:00:00Z")),
   ("previous_record_hash", JVal.prim (JPrim.str "x")),
   ("record_timestamp", JVal.prim (JPrim.str "2024-01-15T10:00:00Z")),
   ("signatures", JVal.arr [JPrim.str "S1"])]

/-- Ledger holding just `drRec`, empty payment log. -/
def L0 : FidesLedger := { records := [drRec], payments := [] }

/-- A payment matching `drRec` in every respect. -/
def pay0 : Payment :=
  { decision_id := U0, beneficiary := "BEN-1", currency := "BRL",
    value := "6000.00", payment_date := "2024-02-01T00:00:00Z" }

/-! ## Claim C1 -/

/-- C1: the claim says `is_payment_authorized` never raises and collapses
every failure mode to `False`.  The code violates this: with a decision
record that passes every check, a payment whose `value` is the string
`"NaN"` reaches `payment_value <= 0` (outside the `try` block), and a
decimal NaN ordering comparison raises `InvalidOperation` under the default
context.  The embedded engine evaluates to that exception on this concrete
input. -/
theorem c1_engine_raises_on_nan :
    is_payment_authorized L0
      { decision_id := U0, beneficiary := "BEN-1", currency := "BRL",
        value := "NaN", payment_date := "2024-02-01T00:00:00Z" } =
    Except.error PyExc.invalidOperation := by
  decide

/-! ## Claim C6 -/

/-- A structurally complete DR whose `decision_date` is naive
(`2024-01-01T00:00:00`) while `record_timestamp` is aware
(`2024-01-01T00:00:00Z`).  Both are valid ISO 8601 strings. -/
def mixedTzRec : Rec :=
  [("decision_id", JVal.prim (JPrim.str U0)),
   ("authority_id", JVal.prim (JPrim.str "A")),
   ("deciders_id", JVal.arr [JPrim.str "D"]),
   ("act_type", JVal.prim (JPrim.str "t")),
   ("currency", JVal.prim (JPrim.str "BRL")),
   ("maximum_value", JVal.prim (JPrim.str "1")),
   ("beneficiary", JVal.prim (JPrim.str "B")),
   ("legal_basis", JVal.prim (JPrim.str "L")),
   ("decision_date", JVal.prim (JPrim.str "2024-01-01T00:00:00")),
   ("previous_record_hash", JVal.prim (JPrim.str "x")),
   ("record_timestamp", JVal.prim (JPrim.str "2024-01-01T00:00:00Z")),
   ("signatures", JVal.arr [JPrim.str "S"])]

/-- C6: the claim says `validate_dr` always returns the ordered error list
(pure, total).  The code violates this: when `decision_date` and
`record_timestamp` are both valid timestamps but exactly one carries a UTC
offset, the rule `parse_date(decision_date) > parse_date(record_timestamp)`
compares a naive with an aware `datetime` and raises `TypeError` instead of
returning.  The embedded validator evaluates to that exception on this
concrete record. -/
theorem c6_validate_dr_raises_on_mixed_tz :
    validate_dr mixedTzRec = Except.error PyExc.typeError := by
  decide

/-! ## Claim C3 -/

/-- Helper: `find?` over an appended list. -/
theorem findAppend {α : Type} (q : α → Bool) (l₁ l₂ : List α) :
    (l₁ ++ l₂).find? q = ((l₁.find? q).orElse (fun _ => l₂.find? q)) := by
  induction l₁ with
  | nil => rfl
  | cons x xs ih => by_cases h : q x <;> simp [List.find?, h, ih, Option.orElse]

/-- Helper: appending a revocation record whose `target_decision_id` column
matches makes `is_revoked` true. -/
theorem revoked_after_append (l : FidesLedger) (id : String) (rr : Rec)
    (htarget : jvalEqStr (recGetN rr "target_decision_id") id = true)
    (htype : jvalEqStr (recordTypeCol rr) "RR" = true) :
    FidesLedger.is_revoked { records := l.records ++ [rr], payments := l.payments } id = true := by
  unfold FidesLedger.is_revoked FidesLedger.find_revocation_record
  simp only [findAppend]
  cases h : l.records.find? (fun r =>
      jvalEqStr (recGetN r "target_decision_id") id && jvalEqStr (recordTypeCol r) "RR") with
  | some r => simp [Option.orElse, h]
  | none => simp [Option.orElse, h, List.find?, htarget, htype]

/-- C3: authorization is monotonically stricter after revocation.  If
`is_payment_authorized ledger p` is `True` and a revocation record (type
column `RR`) targeting `p.decision_id` is appended, the same payment is
rejected afterwards: step 2 of the engine finds the new revocation and
returns `False`. -/
theorem c3_revocation_monotonic (l : FidesLedger) (p : Payment) (rr : Rec)
    (hauth : is_payment_authorized l p = Except.ok true)
    (htarget : jvalEqStr (recGetN rr "target_decision_id") p.decision_id = true)
    (htype : jvalEqStr (recordTypeCol rr) "RR" = true) :
    is_payment_authorized { records := l.records ++ [rr], payments := l.payments } p =
      Except.ok false := by
  clear hauth
  unfold is_payment_authorized
  cases hf : FidesLedger.find_decision_record
      { records := l.records ++ [rr], payments := l.payments } p.decision_id with
  | none => rfl
  | some dr =>
    simp only [revoked_after_append l p.decision_id rr htarget htype]
    rfl

/-- A revocation record targeting `drRec`'s decision. -/
def rr3 : Rec :=
  [("record_type", JVal.prim (JPrim.str "RR")),
   ("revocation_id", JVal.prim (JPrim.str U1)),
   ("target_decision_id", JVal.prim (JPrim.str U0)),
   ("authority_id", JVal.prim (JPrim.str "AUTH-1")),
   ("deciders_id", JVal.arr [JPrim.str "D1"]),
   ("revocation_reason", JVal.prim (JPrim.str "fraud")),
   ("revocation_date", JVal.prim (JPrim.str "2024-03-01T00:00:00Z")),
   ("previous_record_hash", JVal.prim (JPrim.str "y")),
   ("record_timestamp", JVal.prim (JPrim.str "2024-03-01T00:00:00Z")),
   ("signatures", JVal.arr [JPrim.str "S1"])]

/-- C3 witness: `pay0` is authorized against `L0`; after appending the
revocation `rr3` it is rejected. -/
theorem c3_revocation_monotonic_witness :
    is_payment_authorized L0 pay0 = Except.ok true ∧
    jvalEqStr (recGetN rr3 "target_decision_id") pay0.decision_id = true ∧
    jvalEqStr (recordTypeCol rr3) "RR" = true ∧
    is_payment_authorized { records := L0.records ++ [rr3], payments := L0.payments } pay0 =
      Except.ok false :=
  ⟨by decide, by decide, by decide,
   c3_revocation_monotonic L0 pay0 rr3 (by decide) (by decide) (by decide)⟩

/-! ## Claim C4 -/

/-- C4: the binary engine and the reason-carrying variant agree on the
authorize/reject outcome (and on the exception raised, when one escapes)
for every ledger state and every payment. -/
theorem c4_reason_variant_agrees (l : FidesLedger) (p : Payment) :
    (is_payment_authorized_with_reason l p).map Prod.fst = is_payment_authorized l p := by
  unfold is_payment_authorized is_payment_authorized_with_reason
  repeat' split <;> try rfl
  all_goals
    first
      | (subst_vars; rfl)
      | (rename_i hpass
         rw [Bool.not_eq_true] at hpass
         subst hpass
         rfl)

/-! ## Claims C7 and C9 -/

/-- The chain-validation condition of `append_record`: genesis check on an
empty ledger, link check against the last stored record otherwise. -/
def chainFail (l : FidesLedger) (r : Rec) : Bool :=
  match l.records.getLast? with
  | none => !verify_genesis r
  | some last => !verify_chain_link r last

/-- The message of the `ChainError` raised by `append_record`. -/
def chainMsg (l : FidesLedger) (r : Rec) : String :=
  match l.records.getLast? with
  | none => "Invalid genesis hash"
  | some _ => "Hash chain validation failed"

/-- C7: `append_record` fails, with a ChainError, exactly when the ledger
is empty and the genesis check fails, or the ledger is non-empty and the
record's `previous_record_hash` differs from the hash of the last appended
record; on success the record is stored at the end (insertion order), the
payment log is untouched, and the record hash is returned.  The embedding's
only mutators are `append_record` and `record_payment`; no update or delete
operation exists. -/
theorem c7_append_chain_characterization (l : FidesLedger) (r : Rec) :
    l.append_record r =
      (if chainFail l r then Except.error (Err.chain (chainMsg l r))
       else Except.ok (record_hash r,
         { records := l.records ++ [r], payments := l.payments })) := by
  unfold FidesLedger.append_record chainFail chainMsg
  cases l.records.getLast? <;> simp only [] <;> split <;> simp_all

/-- C9: when the genesis or chain-link check fails, `append_record` returns
the ChainError and produces no successor ledger state at all — the check is
evaluated before the insert in the source, so the record list and payment
log are unchanged by a failed append. -/
theorem c9_append_error_before_insert (l : FidesLedger) (r : Rec)
    (h : chainFail l r = true) :
    l.append_record r = Except.error (Err.chain (chainMsg l r)) := by
  unfold chainFail at h
  unfold FidesLedger.append_record chainMsg
  cases hl : l.records.getLast? <;> rw [hl] at h <;> simp_all

/-- A record with no `previous_record_hash` at all. -/
def r9 : Rec := [("foo", JVal.prim (JPrim.str "bar"))]

/-- C9 witness: appending `r9` to the empty ledger fails the genesis check
and yields the ChainError. -/
theorem c9_append_error_before_insert_witness :
    chainFail emptyLedger r9 = true ∧
    FidesLedger.append_record emptyLedger r9 =
      Except.error (Err.chain (chainMsg emptyLedger r9)) :=
  ⟨by decide, c9_append_error_before_insert _ _ (by decide)⟩

/-! ## Claim C5 -/

/-- All successive chain links hold, starting from `prev`. -/
def linkAll (prev : Rec) : List Rec → Bool
  | [] => true
  | r :: rest => verify_chain_link r prev && linkAll r rest

/-- The full chain invariant: genesis check on the head, links after. -/
def chainOKList : List Rec → Bool
  | [] => true
  | r0 :: rest => verify_genesis r0 && linkAll r0 rest

theorem getLastCons {α : Type} (x : α) (xs : List α) :
    (x :: xs).getLast? = some (xs.getLast?.getD x) := by
  induction xs generalizing x with
  | nil => rfl
  | cons z zs ih =>
    have h1 : (x :: z :: zs).getLast? = (z :: zs).getLast? := rfl
    rw [h1, ih z]
    rfl

theorem firstBadLink_none (rest : List Rec) :
    ∀ (prev : Rec) (i : Nat), linkAll prev rest = true → firstBadLink prev rest i = none := by
  induction rest with
  | nil => intro prev i _; rfl
  | cons r rs ih =>
    intro prev i h
    unfold linkAll at h
    rw [Bool.and_eq_true] at h
    unfold firstBadLink
    rw [h.1]
    simpa using ih r (i + 1) h.2

theorem verify_of_chainOK (l : FidesLedger) (h : chainOKList l.records = true) :
    l.verify_chain_integrity = (true, none) := by
  unfold FidesLedger.verify_chain_integrity
  cases hrec : l.records with
  | nil => rfl
  | cons r0 rest =>
    rw [hrec] at h
    unfold chainOKList at h
    rw [Bool.and_eq_true] at h
    simp only [h.1, Bool.not_true, Bool.false_eq_true, if_false,
      firstBadLink_none rest r0 1 h.2]

theorem linkAllAppend (xs : List Rec) :
    ∀ (prev : Rec) (r : Rec),
      linkAll prev (xs ++ [r]) =
        (linkAll prev xs && verify_chain_link r (xs.getLast?.getD prev)) := by
  induction xs with
  | nil => intro prev r; simp [linkAll]
  | cons x rest ih =>
    intro prev r
    show (verify_chain_link x prev && linkAll x (rest ++ [r])) = _
    rw [ih x, getLastCons x rest]
    simp [linkAll, Bool.and_assoc]

theorem chainOKAppend (l : List Rec) (r : Rec)
    (h : chainOKList l = true)
    (hgen : l.getLast? = none → verify_genesis r = true)
    (hlink : ∀ last, l.getLast? = some last → verify_chain_link r last = true) :
    chainOKList (l ++ [r]) = true := by
  cases l with
  | nil => simp [chainOKList, linkAll, hgen rfl]
  | cons r0 rest =>
    unfold chainOKList at h ⊢
    rw [Bool.and_eq_true] at h
    show (verify_genesis r0 && linkAll r0 (rest ++ [r])) = true
    rw [linkAllAppend, h.1, h.2]
    have := hlink (rest.getLast?.getD r0) (getLastCons r0 rest)
    simp [this]

theorem append_ok_of_chainFail_false (l : FidesLedger) (r : Rec)
    (h : chainFail l r = false) :
    l.append_record r = Except.ok (record_hash r,
      { records := l.records ++ [r], payments := l.payments }) := by
  unfold chainFail at h
  unfold FidesLedger.append_record
  cases hl : l.records.getLast? <;> rw [hl] at h <;> simp_all

theorem mkDR_chainFail_false (ledger : FidesLedger) (a : String) (ds : List String)
    (act cur mv ben lb dd : String) (sg : List String) (did ts : Option String)
    (g n : String) :
    chainFail ledger (mkDRDict ledger a ds act cur mv ben lb dd sg did ts g n) = false := by
  have h1 : recGetN (mkDRDict ledger a ds act cur mv ben lb dd sg did ts g n)
      "previous_record_hash" =
      JVal.prim (JPrim.str (compute_previous_hash a (ts.getD n) ledger.records.getLast?)) := rfl
  have h2 : recGetD (mkDRDict ledger a ds act cur mv ben lb dd sg did ts g n)
      "authority_id" (JVal.prim (JPrim.str "")) = JVal.prim (JPrim.str a) := rfl
  have h3 : recGetD (mkDRDict ledger a ds act cur mv ben lb dd sg did ts g n)
      "record_timestamp" (JVal.prim (JPrim.str "")) = JVal.prim (JPrim.str (ts.getD n)) := rfl
  unfold chainFail
  cases hl : ledger.records.getLast? with
  | none =>
    have hg : verify_genesis (mkDRDict ledger a ds act cur mv ben lb dd sg did ts g n) = true := by
      unfold verify_genesis
      rw [h1, h2, h3, hl]
      simp [compute_previous_hash, pyStr, jvalEqStr]
    simp [hg]
  | some last =>
    have hg : verify_chain_link (mkDRDict ledger a ds act cur mv ben lb dd sg did ts g n)
        last = true := by
      unfold verify_chain_link
      rw [h1, hl]
      simp [compute_previous_hash, jvalEqStr]
    simp [hg]

theorem mkRR_chainFail_false (ledger : FidesLedger) (t a : String) (ds : List String)
    (rs : String) (sg : List String) (rid rd ts : Option String) (g n : String) :
    chainFail ledger (mkRRDict ledger t a ds rs sg rid rd ts g n) = false := by
  have h1 : recGetN (mkRRDict ledger t a ds rs sg rid rd ts g n) "previous_record_hash" =
      JVal.prim (JPrim.str (compute_previous_hash a (ts.getD n) ledger.records.getLast?)) := rfl
  have h2 : recGetD (mkRRDict ledger t a ds rs sg rid rd ts g n)
      "authority_id" (JVal.prim (JPrim.str "")) = JVal.prim (JPrim.str a) := rfl
  have h3 : recGetD (mkRRDict ledger t a ds rs sg rid rd ts g n)
      "record_timestamp" (JVal.prim (JPrim.str "")) = JVal.prim (JPrim.str (ts.getD n)) := rfl
  unfold chainFail
  cases hl : ledger.records.getLast? with
  | none =>
    have hg : verify_genesis (mkRRDict ledger t a ds rs sg rid rd ts g n) = true := by
      unfold verify_genesis
      rw [h1, h2, h3, hl]
      simp [compute_previous_hash, pyStr, jvalEqStr]
    simp [hg]
  | some last =>
    have hg : verify_chain_link (mkRRDict ledger t a ds rs sg rid rd ts g n) last = true := by
      unfold verify_chain_link
      rw [h1, hl]
      simp [compute_previous_hash, jvalEqStr]
    simp [hg]

theorem chainOK_extend (ledger : FidesLedger) (r : Rec)
    (hok : chainOKList ledger.records = true)
    (hcf : chainFail ledger r = false) :
    chainOKList (ledger.records ++ [r]) = true := by
  unfold chainFail at hcf
  apply chainOKAppend _ _ hok
  · intro hnone
    rw [hnone] at hcf
    simpa using hcf
  · intro last hlast
    rw [hlast] at hcf
    simpa using hcf

inductive Op where
  | mkDR (authority_id : String) (deciders_id : List String)
      (act_type currency maximum_value beneficiary legal_basis decision_date : String)
      (signatures : List String) (decision_id record_timestamp : Option String)
      (genId nowTs : String)
  | mkRR (target_decision_id authority_id : String) (deciders_id : List String)
      (revocation_reason : String) (signatures : List String)
      (revocation_id revocation_date record_timestamp : Option String)
      (genId nowTs : String)

def runOp (l : FidesLedger) : Op → Except Err (Rec × FidesLedger)
  | Op.mkDR a ds act cur mv ben lb dd sg did ts g n =>
    create_decision_record l a ds act cur mv ben lb dd sg did ts g n
  | Op.mkRR t a ds rs sg rid rd ts g n =>
    create_revocation_record l t a ds rs sg rid rd ts g n

def applyOp (l : FidesLedger) (op : Op) : FidesLedger :=
  match runOp l op with
  | Except.ok (_, l') => l'
  | Except.error _ => l

theorem applyOp_preserves (l : FidesLedger) (op : Op)
    (h : chainOKList l.records = true) :
    chainOKList (applyOp l op).records = true := by
  cases op with
  | mkDR a ds act cur mv ben lb dd sg did ts g n =>
    unfold applyOp runOp create_decision_record
    simp only []
    cases hv : validate_dr (mkDRDict l a ds act cur mv ben lb dd sg did ts g n) with
    | error e => simp only [hv]; exact h
    | ok p =>
      rcases p with ⟨valid, errors⟩
      cases valid with
      | false => simp only [hv, Bool.not_false, if_true]; exact h
      | true =>
        simp only [hv, Bool.not_true, Bool.false_eq_true, if_false,
          append_ok_of_chainFail_false l _
            (mkDR_chainFail_false l a ds act cur mv ben lb dd sg did ts g n)]
        exact chainOK_extend l _ h (mkDR_chainFail_false l a ds act cur mv ben lb dd sg did ts g n)
  | mkRR t a ds rs sg rid rd ts g n =>
    unfold applyOp runOp create_revocation_record
    simp only []
    cases hf : l.find_decision_record t with
    | none => simp only [hf]; exact h
    | some dr0 =>
      simp only [hf]
      cases hrv : l.is_revoked t with
      | true => simp only [hrv, if_true]; exact h
      | false =>
        simp only [hrv, Bool.false_eq_true, if_false]
        cases hv : validate_rr (mkRRDict l t a ds rs sg rid rd ts g n) with
        | mk valid errors =>
          cases valid with
          | false => simp only [hv, Bool.not_false, if_true]; exact h
          | true =>
            simp only [hv, Bool.not_true, Bool.false_eq_true, if_false,
              append_ok_of_chainFail_false l _
                (mkRR_chainFail_false l t a ds rs sg rid rd ts g n)]
            exact chainOK_extend l _ h (mkRR_chainFail_false l t a ds rs sg rid rd ts g n)

/-- C5: for every chain of records built solely through the factory
operations (`create_decision_record` / `create_revocation_record`, modelled
as `Op` with the impure uuid/timestamp generators passed explicitly, failed
operations leaving the ledger unchanged), `verify_chain_integrity` on the
resulting ledger returns valid with no invalid index. -/
theorem c5_factory_chain_integrity (ops : List Op) :
    (ops.foldl applyOp emptyLedger).verify_chain_integrity = (true, none) := by
  have main : ∀ (os : List Op) (l : FidesLedger), chainOKList l.records = true →
      chainOKList ((os.foldl applyOp l)).records = true := by
    intro os
    induction os with
    | nil => intro l h; exact h
    | cons op rest ih =>
      intro l h
      exact ih (applyOp l op) (applyOp_preserves l op h)
  exact verify_of_chainOK _ (main ops emptyLedger rfl)

/-! ## Claim C8 -/

/-- C8: `create_revocation_record` fails with a LookupError exactly when the
target `decision_id` has no decision record or the target is already
revoked; the built RR's `revocation_date` defaults to the resolved
`record_timestamp` when absent; and in the non-lookup-failure case, when the
built RR validates, the RR is appended to the end of the ledger. -/
theorem c8_create_revocation_contract (l : FidesLedger) (t a : String) (ds : List String)
    (rs : String) (sg : List String) (rid rd ts : Option String) (g n : String) :
    ((∃ m, create_revocation_record l t a ds rs sg rid rd ts g n = Except.error (Err.lookup m)) ↔
      (l.find_decision_record t = none ∨ l.is_revoked t = true))
    ∧ (recGetN (mkRRDict l t a ds rs sg rid none ts g n) "revocation_date" =
        JVal.prim (JPrim.str (ts.getD n)))
    ∧ (∀ dr0, l.find_decision_record t = some dr0 → l.is_revoked t = false →
        (validate_rr (mkRRDict l t a ds rs sg rid rd ts g n)).1 = true →
        create_revocation_record l t a ds rs sg rid rd ts g n =
          Except.ok (mkRRDict l t a ds rs sg rid rd ts g n,
            { records := l.records ++ [mkRRDict l t a ds rs sg rid rd ts g n],
              payments := l.payments })) := by
  refine ⟨⟨?_, ?_⟩, rfl, ?_⟩
  · rintro ⟨m, hm⟩
    cases hf : l.find_decision_record t with
    | none => exact Or.inl rfl
    | some dr0 =>
      cases hrv : l.is_revoked t with
      | true => exact Or.inr rfl
      | false =>
        exfalso
        unfold create_revocation_record at hm
        simp only [hf, hrv, Bool.false_eq_true, if_false] at hm
        cases hv : validate_rr (mkRRDict l t a ds rs sg rid rd ts g n) with
        | mk valid errs =>
          rw [hv] at hm
          cases valid with
          | false => simp at hm
          | true =>
            simp only [Bool.not_true, Bool.false_eq_true, if_false,
              append_ok_of_chainFail_false l _
                (mkRR_chainFail_false l t a ds rs sg rid rd ts g n)] at hm
            exact Except.noConfusion hm
  · rintro (hf | hrv)
    · refine ⟨"Target decision not found: " ++ t, ?_⟩
      unfold create_revocation_record
      simp only [hf]
    · cases hf : l.find_decision_record t with
      | none =>
        refine ⟨"Target decision not found: " ++ t, ?_⟩
        unfold create_revocation_record
        simp only [hf]
      | some dr0 =>
        refine ⟨"Decision already revoked: " ++ t, ?_⟩
        unfold create_revocation_record
        simp only [hf, hrv, if_true]
  · intro dr0 hf hrv hv
    unfold create_revocation_record
    simp only [hf, hrv, Bool.false_eq_true, if_false]
    cases hvv : validate_rr (mkRRDict l t a ds rs sg rid rd ts g n) with
    | mk valid errs =>
      rw [hvv] at hv
      simp only at hv
      cases valid with
      | false => simp at hv
      | true =>
        simp only [Bool.not_true, Bool.false_eq_true, if_false,
          append_ok_of_chainFail_false l _
            (mkRR_chainFail_false l t a ds rs sg rid rd ts g n)]

/-- The revocation record the factory builds against `L0` with
`revocation_date` left absent. -/
def rrW : Rec := mkRRDict L0 U0 "AUTH-1" ["D1"] "fraud" ["S1"]
  (some U1) none (some "2024-03-01T00:00:00Z") "g" "n"

/-- C8 witness: against `L0` the target exists and is unrevoked, the built
RR validates, and `create_revocation_record` appends it (with
`revocation_date` defaulted to the given `record_timestamp`). -/
theorem c8_create_revocation_contract_witness :
    L0.find_decision_record U0 = some drRec ∧
    L0.is_revoked U0 = false ∧
    (validate_rr rrW).1 = true ∧
    create_revocation_record L0 U0 "AUTH-1" ["D1"] "fraud" ["S1"]
        (some U1) none (some "2024-03-01T00:00:00Z") "g" "n" =
      Except.ok (rrW, { records := L0.records ++ [rrW], payments := L0.payments }) :=
  ⟨by decide, by decide, by decide,
   (c8_create_revocation_contract L0 U0 "AUTH-1" ["D1"] "fraud" ["S1"]
      (some U1) none (some "2024-03-01T00:00:00Z") "g" "n").2.2
     drRec (by decide) (by decide) (by decide)⟩

/-! ## Claim C10 -/

/-- C10: for an SDR whose `maximum_term` is absent, empty, falsy or not a
valid timestamp, the engine performs no term-limit check at all: a payment
passing steps 1-7 is authorized whatever its `payment_date` (the hypotheses
fix steps 1-7 and leave the payment date otherwise unconstrained). -/
theorem c10_sdr_malformed_term_skipped (l : FidesLedger) (p : Payment) (dr : Rec)
    (pday dday : PyDateTime) (ord : Ordering) (pv mv tot s : PyDec) (o2 : Ordering)
    (es : List String)
    (h1 : l.find_decision_record p.decision_id = some dr)
    (h2 : l.is_revoked p.decision_id = false)
    (h3 : validate_dr dr = Except.ok (true, es))
    (h4 : is_iso8601_str p.payment_date = true)
    (h5 : is_iso8601 (recGetD dr "decision_date" (JVal.prim (JPrim.str ""))) = true)
    (h6 : parse_date p.payment_date = some pday)
    (h7 : parseDateVal (recGetN dr "decision_date") = some dday)
    (h8 : cmpDT pday dday = Except.ok ord)
    (h9 : (ord == Ordering.lt) = false)
    (h10 : jvalEqStr (recGetN dr "beneficiary") p.beneficiary = true)
    (h11 : jvalEqStr (recGetN dr "currency") p.currency = true)
    (h12 : parseDec p.value = some pv)
    (h13 : parseDec (pyStr (recGetD dr "maximum_value" (JVal.prim (JPrim.str "0")))) = some mv)
    (h14 : decCmp pv (PyDec.fin 0 0) = Except.ok Ordering.gt)
    (h15 : l.sum_payments p.decision_id = Except.ok tot)
    (h16 : decAdd tot pv = Except.ok s)
    (h17 : decCmp s mv = Except.ok o2)
    (h18 : (o2 == Ordering.gt) = false)
    (hSDR : jvalEqStr (recGetN dr "record_type") "SDR" = true)
    (hterm : (pyTruthy (recGetN dr "maximum_term") && is_iso8601 (recGetN dr "maximum_term")) = false) :
    is_payment_authorized l p = Except.ok true := by
  have ht : termCheck dr pday = Except.ok true := by
    unfold termCheck
    simp only [hSDR, if_true, hterm, Bool.false_eq_true, if_false]
  unfold is_payment_authorized
  simp only [h1, h2, h3, h4, h5, h6, h7, h8, h9, h10, h11, h12, h13, h14, h15, h16, h17,
    h18, ht, Bool.not_true, Bool.not_false, Bool.false_eq_true, if_false, if_true]
  rfl

/-- Convenience: the parsed datetime of a literal (used only to name parse
results in witness statements). -/
def dtOf (s : String) : PyDateTime :=
  (parse_date s).getD { wall := 0, off := none }

/-- Convenience: the parsed decimal of a literal. -/
def decOf (s : String) : PyDec :=
  (parseDec s).getD (PyDec.fin 0 0)

/-- An SDR identical to `drRec` except for its type and a malformed
`maximum_term`. -/
def sdr10 : Rec :=
  [("record_type", JVal.prim (JPrim.str "SDR")),
   ("decision_id", JVal.prim (JPrim.str U0)),
   ("authority_id", JVal.prim (JPrim.str "AUTH-1")),
   ("deciders_id", JVal.arr [JPrim.str "D1"]),
   ("act_type", JVal.prim (JPrim.str "grant")),
   ("currency", JVal.prim (JPrim.str "BRL")),
   ("maximum_value", JVal.prim (JPrim.str "10000.00")),
   ("beneficiary", JVal.prim (JPrim.str "BEN-1")),
   ("legal_basis", JVal.prim (JPrim.str "L1")),
   ("decision_date", JVal.prim (JPrim.str "2024-01-15T10:00:00Z")),
   ("previous_record_hash", JVal.prim (JPrim.str "x")),
   ("record_timestamp", JVal.prim (JPrim.str "2024-01-15T10:00:00Z")),
   ("maximum_term", JVal.prim (JPrim.str "soon")),
   ("signatures", JVal.arr [JPrim.str "S1"])]

def L10 : FidesLedger := { records := [sdr10], payments := [] }

/-- A payment against the SDR dated far in the future. -/
def pay10 : Payment :=
  { decision_id := U0, beneficiary := "BEN-1", currency := "BRL",
    value := "6000.00", payment_date := "2030-01-01T00:00:00Z" }

/-- C10 witness: the truthy-but-unparsable `maximum_term` `"soon"` disables
the expiry check and the 2030 payment is authorized. -/
theorem c10_sdr_malformed_term_skipped_witness :
    (L10.find_decision_record pay10.decision_id = some sdr10 ∧
     L10.is_revoked pay10.decision_id = false ∧
     validate_dr sdr10 = Except.ok (true, []) ∧
     is_iso8601_str pay10.payment_date = true ∧
     is_iso8601 (recGetD sdr10 "decision_date" (JVal.prim (JPrim.str ""))) = true ∧
     parse_date pay10.payment_date = some (dtOf "2030-01-01T00:00:00Z") ∧
     parseDateVal (recGetN sdr10 "decision_date") = some (dtOf "2024-01-15T10:00:00Z") ∧
     cmpDT (dtOf "2030-01-01T00:00:00Z") (dtOf "2024-01-15T10:00:00Z") = Except.ok Ordering.gt ∧
     jvalEqStr (recGetN sdr10 "beneficiary") pay10.beneficiary = true ∧
     jvalEqStr (recGetN sdr10 "currency") pay10.currency = true ∧
     parseDec pay10.value = some (decOf "6000.00") ∧
     parseDec (pyStr (recGetD sdr10 "maximum_value" (JVal.prim (JPrim.str "0")))) =
       some (decOf "10000.00") ∧
     decCmp (decOf "6000.00") (PyDec.fin 0 0) = Except.ok Ordering.gt ∧
     L10.sum_payments pay10.decision_id = Except.ok (PyDec.fin 0 0) ∧
     decAdd (PyDec.fin 0 0) (decOf "6000.00") = Except.ok (decOf "6000.00") ∧
     decCmp (decOf "6000.00") (decOf "10000.00") = Except.ok Ordering.lt ∧
     jvalEqStr (recGetN sdr10 "record_type") "SDR" = true ∧
     (pyTruthy (recGetN sdr10 "maximum_term") && is_iso8601 (recGetN sdr10 "maximum_term")) = false) ∧
    is_payment_authorized L10 pay10 = Except.ok true := by
  have hall : L10.find_decision_record pay10.decision_id = some sdr10 ∧
      L10.is_revoked pay10.decision_id = false ∧
      validate_dr sdr10 = Except.ok (true, []) ∧
      is_iso8601_str pay10.payment_date = true ∧
      is_iso8601 (recGetD sdr10 "decision_date" (JVal.prim (JPrim.str ""))) = true ∧
      parse_date pay10.payment_date = some (dtOf "2030-01-01T00:00:00Z") ∧
      parseDateVal (recGetN sdr10 "decision_date") = some (dtOf "2024-01-15T10:00:00Z") ∧
      cmpDT (dtOf "2030-01-01T00:00:00Z") (dtOf "2024-01-15T10:00:00Z") = Except.ok Ordering.gt ∧
      jvalEqStr (recGetN sdr10 "beneficiary") pay10.beneficiary = true ∧
      jvalEqStr (recGetN sdr10 "currency") pay10.currency = true ∧
      parseDec pay10.value = some (decOf "6000.00") ∧
      parseDec (pyStr (recGetD sdr10 "maximum_value" (JVal.prim (JPrim.str "0")))) =
        some (decOf "10000.00") ∧
      decCmp (decOf "6000.00") (PyDec.fin 0 0) = Except.ok Ordering.gt ∧
      L10.sum_payments pay10.decision_id = Except.ok (PyDec.fin 0 0) ∧
      decAdd (PyDec.fin 0 0) (decOf "6000.00") = Except.ok (decOf "6000.00") ∧
      decCmp (decOf "6000.00") (decOf "10000.00") = Except.ok Ordering.lt ∧
      jvalEqStr (recGetN sdr10 "record_type") "SDR" = true ∧
      (pyTruthy (recGetN sdr10 "maximum_term") && is_iso8601 (recGetN sdr10 "maximum_term")) = false := by
    decide
  obtain ⟨k1, k2, k3, k4, k5, k6, k7, k8, k9, k10, k11, k12, k13, k14, k15, k16, k17, k18⟩ := hall
  exact ⟨⟨k1, k2, k3, k4, k5, k6, k7, k8, k9, k10, k11, k12, k13, k14, k15, k16, k17, k18⟩,
    c10_sdr_malformed_term_skipped L10 pay10 sdr10
      (dtOf "2030-01-01T00:00:00Z") (dtOf "2024-01-15T10:00:00Z") Ordering.gt
      (decOf "6000.00") (decOf "10000.00") (PyDec.fin 0 0) (decOf "6000.00") Ordering.lt []
      k1 k2 k3 k4 k5 k6 k7 k8 (of_decide_eq_true rfl) k9 k10 k11 k12 k13 k14 k15 k16
      (of_decide_eq_true rfl) k17 k18⟩

/-! ## Claim C2

Value-level semantics of finite decimals (`valQ m e = m * 10 ^ e` over ℚ),
used to state the value-limit rule, plus spec-side exact-arithmetic
definitions used to compare the claim's "exact-decimal arithmetic" against
the code's context-rounded arithmetic. -/
def valQ (m e : Int) : ℚ := (m : ℚ) * (10 : ℚ) ^ e

def PyDec.val : PyDec → ℚ
  | PyDec.fin m e => valQ m e
  | _ => 0

def PyDec.isFin : PyDec → Bool
  | PyDec.fin _ _ => true
  | _ => false

def addVal (a b : PyDec) : ℚ :=
  match decAdd a b with
  | Except.ok d => d.val
  | Except.error _ => 0

theorem valQ_zero : valQ 0 0 = 0 := by simp [valQ]

theorem valQ_scale (m e : Int) (k : Nat) : valQ (m * 10 ^ k) e = valQ m (e + k) := by
  unfold valQ
  push_cast
  rw [zpow_add₀ (by norm_num : (10:ℚ) ≠ 0), zpow_natCast]
  ring

theorem valQ_lt_same (m1 m2 e : Int) : valQ m1 e < valQ m2 e ↔ m1 < m2 := by
  unfold valQ
  rw [mul_lt_mul_right (zpow_pos (by norm_num : (0:ℚ) < 10) e)]
  exact_mod_cast Iff.rfl

theorem valQ_eq_same (m1 m2 e : Int) : valQ m1 e = valQ m2 e ↔ m1 = m2 := by
  unfold valQ
  rw [mul_left_inj' (zpow_ne_zero e (by norm_num : (10:ℚ) ≠ 0))]
  exact_mod_cast Iff.rfl

theorem finCompare_eq (m1 e1 m2 e2 : Int) :
    finCompare m1 e1 m2 e2 = compare (valQ m1 e1) (valQ m2 e2) := by
  unfold finCompare
  by_cases h : e2 ≤ e1
  · have hrw : valQ m1 e1 = valQ (m1 * 10 ^ (e1 - e2).toNat) e2 := by
      rw [valQ_scale]
      congr 1
      omega
    rw [if_pos h, if_pos h, hrw]
    dsimp only
    split_ifs with h1 h2
    · exact (compare_lt_iff_lt.mpr ((valQ_lt_same _ _ _).mpr h1)).symm
    · exact (compare_eq_iff_eq.mpr ((valQ_eq_same _ _ _).mpr h2)).symm
    · exact (compare_gt_iff_gt.mpr ((valQ_lt_same _ _ _).mpr (by omega))).symm
  · have hrw : valQ m2 e2 = valQ (m2 * 10 ^ (e2 - e1).toNat) e1 := by
      rw [valQ_scale]
      congr 1
      omega
    rw [if_neg h, if_neg h, hrw]
    dsimp only
    split_ifs with h1 h2
    · exact (compare_lt_iff_lt.mpr ((valQ_lt_same _ _ _).mpr h1)).symm
    · exact (compare_eq_iff_eq.mpr ((valQ_eq_same _ _ _).mpr h2)).symm
    · exact (compare_gt_iff_gt.mpr ((valQ_lt_same _ _ _).mpr (by omega))).symm

theorem decCmp_fin (m1 e1 m2 e2 : Int) :
    decCmp (PyDec.fin m1 e1) (PyDec.fin m2 e2) =
      Except.ok (compare (valQ m1 e1) (valQ m2 e2)) := by
  rw [show decCmp (PyDec.fin m1 e1) (PyDec.fin m2 e2) =
      Except.ok (finCompare m1 e1 m2 e2) from rfl, finCompare_eq]

theorem round28_fin (m e : Int) : ∃ sm se, round28 m e = PyDec.fin sm se := by
  unfold round28
  dsimp only
  split_ifs <;> exact ⟨_, _, rfl⟩

/-- C2 (amended): for every payment whose decision record exists, is
unrevoked and valid, whose date, beneficiary and currency checks pass, whose
term-limit check passes, and whose value, `maximum_value` and prior-payment
sum parse as finite decimals, the payment is authorized iff its value is
positive and `sum_payments + value <= maximum_value` under Python's default
decimal-context arithmetic — each addition rounded to 28 significant digits
half-even (`addVal`) — not under exact-decimal arithmetic.  The `<=` (not
`<`) boundary is as the claim states: a value exactly equal to the
remaining headroom is authorized (see the witness). -/
theorem c2_value_limit_amended (l : FidesLedger) (p : Payment) (dr : Rec)
    (pday dday : PyDateTime) (ord : Ordering) (es : List String)
    (vm ve Mm Me tm te : Int)
    (h1 : l.find_decision_record p.decision_id = some dr)
    (h2 : l.is_revoked p.decision_id = false)
    (h3 : validate_dr dr = Except.ok (true, es))
    (h4 : is_iso8601_str p.payment_date = true)
    (h5 : is_iso8601 (recGetD dr "decision_date" (JVal.prim (JPrim.str ""))) = true)
    (h6 : parse_date p.payment_date = some pday)
    (h7 : parseDateVal (recGetN dr "decision_date") = some dday)
    (h8 : cmpDT pday dday = Except.ok ord)
    (h9 : (ord == Ordering.lt) = false)
    (h10 : jvalEqStr (recGetN dr "beneficiary") p.beneficiary = true)
    (h11 : jvalEqStr (recGetN dr "currency") p.currency = true)
    (h12 : parseDec p.value = some (PyDec.fin vm ve))
    (h13 : parseDec (pyStr (recGetD dr "maximum_value" (JVal.prim (JPrim.str "0")))) =
      some (PyDec.fin Mm Me))
    (h14 : l.sum_payments p.decision_id = Except.ok (PyDec.fin tm te))
    (hterm : termCheck dr pday = Except.ok true) :
    (is_payment_authorized l p = Except.ok true ↔
      (0 < valQ vm ve ∧ addVal (PyDec.fin tm te) (PyDec.fin vm ve) ≤ valQ Mm Me)) := by
  unfold is_payment_authorized
  simp only [h1, h2, h3, h4, h5, h6, h7, h8, h9, h10, h11, h12, h13, h14,
    Bool.not_true, Bool.not_false, Bool.false_eq_true, if_false, if_true]
  rw [decCmp_fin vm ve 0 0, valQ_zero]
  dsimp only
  obtain ⟨sm, se, hs⟩ := round28_fin
    (tm * 10 ^ (te - min te ve).toNat + vm * 10 ^ (ve - min te ve).toNat) (min te ve)
  have hadd : decAdd (PyDec.fin tm te) (PyDec.fin vm ve) = Except.ok (PyDec.fin sm se) := by
    rw [show decAdd (PyDec.fin tm te) (PyDec.fin vm ve) =
      Except.ok (round28 (tm * 10 ^ (te - min te ve).toNat + vm * 10 ^ (ve - min te ve).toNat)
        (min te ve)) from rfl, hs]
  have haddval : addVal (PyDec.fin tm te) (PyDec.fin vm ve) = valQ sm se := by
    unfold addVal
    rw [hadd]
    rfl
  rw [haddval]
  cases hcmp : compare (valQ vm ve) (0 : ℚ) with
  | lt =>
    have hv : valQ vm ve < 0 := compare_lt_iff_lt.mp hcmp
    simp only [show (Ordering.lt == Ordering.gt) = false from rfl, Bool.not_false, if_true]
    constructor
    · intro hcontra
      simp at hcontra
    · rintro ⟨hpos, _⟩
      exact absurd hpos (not_lt.mpr hv.le)
  | eq =>
    have hv : valQ vm ve = 0 := compare_eq_iff_eq.mp hcmp
    simp only [show (Ordering.eq == Ordering.gt) = false from rfl, Bool.not_false, if_true]
    constructor
    · intro hcontra
      simp at hcontra
    · rintro ⟨hpos, _⟩
      rw [hv] at hpos
      exact absurd hpos (lt_irrefl 0)
  | gt =>
    have hv : (0 : ℚ) < valQ vm ve := compare_gt_iff_gt.mp hcmp
    simp only [show (Ordering.gt == Ordering.gt) = true from rfl, Bool.not_true,
      Bool.false_eq_true, if_false]
    rw [hadd]
    dsimp only
    rw [decCmp_fin sm se Mm Me]
    dsimp only
    cases hcmp2 : compare (valQ sm se) (valQ Mm Me) with
    | lt =>
      have hle : valQ sm se < valQ Mm Me := compare_lt_iff_lt.mp hcmp2
      simp only [show (Ordering.lt == Ordering.gt) = false from rfl,
        Bool.false_eq_true, if_false, hterm]
      constructor
      · intro _
        exact ⟨hv, hle.le⟩
      · intro _
        trivial
    | eq =>
      have hle : valQ sm se = valQ Mm Me := compare_eq_iff_eq.mp hcmp2
      simp only [show (Ordering.eq == Ordering.gt) = false from rfl,
        Bool.false_eq_true, if_false, hterm]
      constructor
      · intro _
        exact ⟨hv, hle.le⟩
      · intro _
        trivial
    | gt =>
      have hgt : valQ Mm Me < valQ sm se := compare_gt_iff_gt.mp hcmp2
      simp only [show (Ordering.gt == Ordering.gt) = true from rfl, if_true]
      constructor
      · intro hcontra
        simp at hcontra
      · rintro ⟨_, hle⟩
        exact absurd hgt (not_lt.mpr hle)

/-- Modelled from the spec: the exact decimal value of a string, as a
rational — the spec's "parses as a positive exact decimal" reading. -/
def decExactVal (s : String) : Option ℚ :=
  match parseDec s with
  | some (PyDec.fin m e) => some (valQ m e)
  | _ => none

/-- Modelled from the spec: `sum_payments` under exact arbitrary-precision
decimal arithmetic (spec 4.3), for comparison with the code's rounded sum. -/
def exactSumPaymentsQ (l : FidesLedger) (decision_id : String) : Option ℚ :=
  (l.payments.filter (fun row => row.decision_id == decision_id)).foldl
    (fun acc row =>
      match acc, decExactVal row.value with
      | some t, some v => some (t + v)
      | _, _ => none)
    (some 0)

/-- Steps 1-6 of the engine pass (the claim's precondition: record exists,
unrevoked, valid; date, beneficiary and currency checks pass). -/
def passesSteps1to6 (l : FidesLedger) (p : Payment) : Bool :=
  match l.find_decision_record p.decision_id with
  | none => false
  | some dr =>
    !l.is_revoked p.decision_id &&
    (match validate_dr dr with
     | Except.ok (true, _) => true
     | _ => false) &&
    is_iso8601_str p.payment_date &&
    is_iso8601 (recGetD dr "decision_date" (JVal.prim (JPrim.str ""))) &&
    (match parse_date p.payment_date, parseDateVal (recGetN dr "decision_date") with
     | some a, some b =>
       (match cmpDT a b with
        | Except.ok o => !(o == Ordering.lt)
        | _ => false)
     | _, _ => false) &&
    jvalEqStr (recGetN dr "beneficiary") p.beneficiary &&
    jvalEqStr (recGetN dr "currency") p.currency

/-- Decision record with `maximum_value = 1E+28` (29 significant digits of
headroom available). -/
def drR : Rec :=
  [("record_type", JVal.prim (JPrim.str "DR")),
   ("decision_id", JVal.prim (JPrim.str U1)),
   ("authority_id", JVal.prim (JPrim.str "AUTH-1")),
   ("deciders_id", JVal.arr [JPrim.str "D1"]),
   ("act_type", JVal.prim (JPrim.str "grant")),
   ("currency", JVal.prim (JPrim.str "BRL")),
   ("maximum_value", JVal.prim (JPrim.str "1E+28")),
   ("beneficiary", JVal.prim (JPrim.str "BEN-1")),
   ("legal_basis", JVal.prim (JPrim.str "L1")),
   ("decision_date", JVal.prim (JPrim.str "2024-01-15T10:00:00Z")),
   ("previous_record_hash", JVal.prim (JPrim.str "x")),
   ("record_timestamp", JVal.prim (JPrim.str "2024-01-15T10:00:00Z")),
   ("signatures", JVal.arr [JPrim.str "S1"])]

def LR : FidesLedger :=
  { records := [drR],
    payments := [{ payment_id := "p1", decision_id := U1,
                   beneficiary := "BEN-1", currency := "BRL", value := "1E+28",
                   payment_date := "2024-01-20T00:00:00Z" }] }

def pR : Payment :=
  { decision_id := U1, beneficiary := "BEN-1", currency := "BRL",
    value := "1", payment_date := "2024-02-01T00:00:00Z" }

/-- C2 counterexample: `LR` has a recorded prior payment of `1E+28` against
a `maximum_value` of `1E+28`; the new payment of value `1` satisfies every
precondition of the claim, its value parses as a positive exact decimal, and
under exact-decimal arithmetic `sum + value = 10^28 + 1 > 10^28 = maximum`,
so the claim as stated demands REJECT — yet the engine authorizes it: the
default decimal context rounds `10^28 + 1` back to `10^28` (28 significant
digits, half-even) before the `<=` comparison. -/
theorem c2_value_limit_counterexample :
    passesSteps1to6 LR pR = true ∧
    decExactVal pR.value = some 1 ∧ (0 : ℚ) < 1 ∧
    exactSumPaymentsQ LR pR.decision_id = some (10 ^ 28 : ℚ) ∧
    decExactVal (pyStr (recGetD drR "maximum_value" (JVal.prim (JPrim.str "0")))) =
      some (10 ^ 28 : ℚ) ∧
    ¬ ((10 ^ 28 : ℚ) + 1 ≤ (10 ^ 28 : ℚ)) ∧
    is_payment_authorized LR pR = Except.ok true := by
  refine ⟨by decide, ?_, by norm_num, ?_, ?_, by norm_num, by decide⟩
  · have h : parseDec pR.value = some (PyDec.fin 1 0) := by decide
    unfold decExactVal
    rw [h]
    norm_num [valQ]
  · have h : parseDec "1E+28" = some (PyDec.fin 1 28) := by decide
    have hf : LR.payments.filter (fun row => row.decision_id == pR.decision_id) =
        LR.payments := by decide
    unfold exactSumPaymentsQ
    rw [hf]
    show (match (some (0:ℚ), decExactVal "1E+28") with
      | (some t, some v) => some (t + v)
      | _ => none) = some (10 ^ 28 : ℚ)
    unfold decExactVal
    rw [h]
    dsimp only
    rw [Option.some.injEq]
    norm_num [valQ]
  · have h : parseDec (pyStr (recGetD drR "maximum_value" (JVal.prim (JPrim.str "0")))) =
        some (PyDec.fin 1 28) := by decide
    unfold decExactVal
    rw [h]
    dsimp only
    rw [Option.some.injEq]
    norm_num [valQ]

def L2 : FidesLedger :=
  { records := [drRec],
    payments := [{ payment_id := "pA", decision_id := U0, beneficiary := "BEN-1",
                   currency := "BRL", value := "6000.00",
                   payment_date := "2024-01-20T00:00:00Z" }] }

def pay2 : Payment :=
  { decision_id := U0, beneficiary := "BEN-1", currency := "BRL",
    value := "4000.00", payment_date := "2024-02-01T00:00:00Z" }

/-- C2 witness (boundary case): with `6000.00` already recorded against a
`10000.00` maximum, a payment of exactly the remaining headroom `4000.00` is
authorized (`<=`, not `<`). -/
theorem c2_value_limit_amended_witness :
    (L2.find_decision_record pay2.decision_id = some drRec ∧
     L2.is_revoked pay2.decision_id = false ∧
     validate_dr drRec = Except.ok (true, []) ∧
     is_iso8601_str pay2.payment_date = true ∧
     is_iso8601 (recGetD drRec "decision_date" (JVal.prim (JPrim.str ""))) = true ∧
     parse_date pay2.payment_date = some (dtOf "2024-02-01T00:00:00Z") ∧
     parseDateVal (recGetN drRec "decision_date") = some (dtOf "2024-01-15T10:00:00Z") ∧
     cmpDT (dtOf "2024-02-01T00:00:00Z") (dtOf "2024-01-15T10:00:00Z") = Except.ok Ordering.gt ∧
     jvalEqStr (recGetN drRec "beneficiary") pay2.beneficiary = true ∧
     jvalEqStr (recGetN drRec "currency") pay2.currency = true ∧
     parseDec pay2.value = some (PyDec.fin 400000 (-2)) ∧
     parseDec (pyStr (recGetD drRec "maximum_value" (JVal.prim (JPrim.str "0")))) =
       some (PyDec.fin 1000000 (-2)) ∧
     L2.sum_payments pay2.decision_id = Except.ok (PyDec.fin 600000 (-2)) ∧
     termCheck drRec (dtOf "2024-02-01T00:00:00Z") = Except.ok true) ∧
    (0 : ℚ) < valQ 400000 (-2) ∧
    addVal (PyDec.fin 600000 (-2)) (PyDec.fin 400000 (-2)) = valQ 1000000 (-2) ∧
    is_payment_authorized L2 pay2 = Except.ok true := by
  have hall : L2.find_decision_record pay2.decision_id = some drRec ∧
      L2.is_revoked pay2.decision_id = false ∧
      validate_dr drRec = Except.ok (true, []) ∧
      is_iso8601_str pay2.payment_date = true ∧
      is_iso8601 (recGetD drRec "decision_date" (JVal.prim (JPrim.str ""))) = true ∧
      parse_date pay2.payment_date = some (dtOf "2024-02-01T00:00:00Z") ∧
      parseDateVal (recGetN drRec "decision_date") = some (dtOf "2024-01-15T10:00:00Z") ∧
      cmpDT (dtOf "2024-02-01T00:00:00Z") (dtOf "2024-01-15T10:00:00Z") = Except.ok Ordering.gt ∧
      jvalEqStr (recGetN drRec "beneficiary") pay2.beneficiary = true ∧
      jvalEqStr (recGetN drRec "currency") pay2.currency = true ∧
      parseDec pay2.value = some (PyDec.fin 400000 (-2)) ∧
      parseDec (pyStr (recGetD drRec "maximum_value" (JVal.prim (JPrim.str "0")))) =
        some (PyDec.fin 1000000 (-2)) ∧
      L2.sum_payments pay2.decision_id = Except.ok (PyDec.fin 600000 (-2)) ∧
      termCheck drRec (dtOf "2024-02-01T00:00:00Z") = Except.ok true := by
    decide
  obtain ⟨k1, k2, k3, k4, k5, k6, k7, k8, k9, k10, k11, k12, k13, k14⟩ := hall
  have hpos : (0 : ℚ) < valQ 400000 (-2) := by norm_num [valQ]
  have haddc : decAdd (PyDec.fin 600000 (-2)) (PyDec.fin 400000 (-2)) =
      Except.ok (PyDec.fin 1000000 (-2)) := by decide
  have haddv : addVal (PyDec.fin 600000 (-2)) (PyDec.fin 400000 (-2)) = valQ 1000000 (-2) := by
    unfold addVal
    rw [haddc]
    rfl
  exact ⟨⟨k1, k2, k3, k4, k5, k6, k7, k8, k9, k10, k11, k12, k13, k14⟩, hpos, haddv,
    (c2_value_limit_amended L2 pay2 drRec (dtOf "2024-02-01T00:00:00Z")
        (dtOf "2024-01-15T10:00:00Z") Ordering.gt [] 400000 (-2) 1000000 (-2) 600000 (-2)
        k1 k2 k3 k4 k5 k6 k7 k8 (of_decide_eq_true rfl) k9 k10 k11 k12 k13 k14).mpr
      ⟨hpos, le_of_eq haddv⟩⟩
